import Mathlib

/-!
# HSA kernel-dispatch runner (`gcn/1-intro/hsa_runner.cpp`)

A shallow embedding of `HsaRunner::init`, `HsaRunner::setup_executable`,
`HsaRunner::setup_dispatch_packet` and `HsaRunner::dispatch_kernel`.  Machine integers are natural numbers reduced modulo
their width; the ring buffer of the command queue is a map from slot number to the
64 bytes of the packet in that slot; device-runtime calls take their outcome from an
explicit record of outcomes and are logged in program order.
-/

/-! ## Constants of the HSA runtime header (`hsa.h`) -/

def HSA_STATUS_SUCCESS : Nat := 0
def HSA_PACKET_TYPE_KERNEL_DISPATCH : Nat := 2
def HSA_PACKET_HEADER_TYPE : Nat := 0
def HSA_PACKET_HEADER_BARRIER : Nat := 8
def HSA_PACKET_HEADER_ACQUIRE_FENCE_SCOPE : Nat := 9
def HSA_PACKET_HEADER_RELEASE_FENCE_SCOPE : Nat := 11
def HSA_PACKET_HEADER_WIDTH_TYPE : Nat := 8
def HSA_PACKET_HEADER_WIDTH_BARRIER : Nat := 1
def HSA_PACKET_HEADER_WIDTH_ACQUIRE_FENCE_SCOPE : Nat := 2
def HSA_PACKET_HEADER_WIDTH_RELEASE_FENCE_SCOPE : Nat := 2
def HSA_FENCE_SCOPE_SYSTEM : Nat := 2
def HSA_KERNEL_DISPATCH_PACKET_SETUP_DIMENSIONS : Nat := 0
def HSA_KERNEL_DISPATCH_PACKET_SETUP_WIDTH_DIMENSIONS : Nat := 2
def HSA_QUEUE_TYPE_MULTI : Nat := 0
def HSA_AGENT_INFO_NAME : Nat := 0
def HSA_AGENT_INFO_QUEUE_MAX_SIZE : Nat := 14
def UINT32_MAX : Nat := 4294967295
def HSA_PROFILE_FULL : Nat := 1
def HSA_EXECUTABLE_STATE_UNFROZEN : Nat := 0
def HSA_EXECUTABLE_STATE_FROZEN : Nat := 1
def HSA_EXECUTABLE_SYMBOL_INFO_KERNEL_OBJECT : Nat := 22
def HSA_EXECUTABLE_SYMBOL_INFO_KERNEL_GROUP_SEGMENT_SIZE : Nat := 13

/-! ## Byte-addressed memory -/

/-- Bytes of one memory object, by byte offset. -/
abbrev Bytes := Nat → Nat

/-- Little-endian store of the low `width` bytes of `val` at offset `off`. -/
def store_le (m : Bytes) (off width val : Nat) : Bytes :=
  fun a => if off ≤ a ∧ a < off + width then (val / 256 ^ (a - off)) % 256 else m a

/-- Little-endian load of `width` bytes at offset `off`. -/
def load_le (m : Bytes) (off : Nat) : Nat → Nat
  | 0 => 0
  | width + 1 => m off + 256 * load_le m (off + 1) width

/-- The C library `memset(p + off, byte, len)`. -/
def memset (m : Bytes) (off byte len : Nat) : Bytes :=
  fun a => if off ≤ a ∧ a < off + len then byte % 256 else m a

/-! ## Layout of `hsa_kernel_dispatch_packet_t` (64 bytes) -/

def sizeof_packet : Nat := 64
def off_header : Nat := 0
def off_setup : Nat := 2
def off_workgroup_size_x : Nat := 4
def off_workgroup_size_y : Nat := 6
def off_workgroup_size_z : Nat := 8
def off_reserved0 : Nat := 10
def off_grid_size_x : Nat := 12
def off_grid_size_y : Nat := 16
def off_grid_size_z : Nat := 20
def off_private_segment_size : Nat := 24
def off_group_segment_size : Nat := 28
def off_kernel_object : Nat := 32
def off_kernarg_address : Nat := 40
def off_reserved2 : Nat := 48
def off_completion_signal : Nat := 56

/-! ## Data model -/

/-- The command queue `hsa_queue_t`: capacity in packets, the ring buffer at
`base_address` (slot number to packet bytes), the write index kept by the runtime and
the value last stored to the doorbell signal. -/
structure hsa_queue_t where
  size : Nat
  base_address : Nat → Bytes
  write_index : Nat
  doorbell_signal : Nat

/-- Modelled from the spec: `KernelParams` is declared in `hsa_runner.hpp`; these are
the members `setup_dispatch_packet` reads (workgroup dimensions, grid dimensions, the
kernel-argument buffer pointer). -/
structure KernelParams where
  workgroup_size_x : Nat
  workgroup_size_y : Nat
  workgroup_size_z : Nat
  grid_x : Nat
  grid_y : Nat
  grid_z : Nat
  kernarg_ptr : Nat

/-- A store performed by the host, in program order. -/
inductive MemWrite where
  /-- Atomic add on the write index of the queue: previous and new value. -/
  | write_index (old new : Nat)
  /-- Store of `len` bytes at byte offset `off` of the packet in `slot`;
  `release` tells a release-ordered atomic store from a plain one. -/
  | packet (slot off len : Nat) (release : Bool)
  /-- Store of `val` to the doorbell signal of the queue. -/
  | doorbell (val : Nat)
  deriving DecidableEq, Repr

/-- A resource held from the device runtime. -/
inductive Resource where
  | runtime
  | queue
  | signal
  deriving DecidableEq, Repr

/-- State of the executable `_executable` designates: not created yet, created and
still empty (unfrozen), holding a loaded code object, frozen. -/
inductive ExecutableState where
  | absent
  | unfrozen
  | loaded
  | frozen
  deriving DecidableEq, Repr

/-- A call into the device runtime (or into the memory-region manager or the
code-object reader), with the arguments that matter. An executable argument is given
by the state the executable is in when the call is made. -/
inductive RuntimeCall where
  | hsa_init
  | hsa_iterate_agents
  | hsa_agent_get_info (agent attr : Nat)
  | hsa_queue_create (agent size queue_type private_segment_size group_segment_size : Nat)
  | hsa_signal_create (initial_value num_consumers : Nat)
  | setup_memory_regions (agent : Nat)
  | hsa_signal_destroy
  | hsa_queue_destroy
  | hsa_shut_down
  | load_code_object (code_object_path : String)
  | hsa_executable_create (profile executable_state : Nat)
  | hsa_executable_load_code_object (executable : ExecutableState) (agent code_object : Nat)
  | hsa_executable_freeze (executable : ExecutableState)
  | hsa_executable_get_symbol (executable : ExecutableState) (symbol_name : String)
      (agent : Nat)
  | hsa_executable_symbol_get_info (symbol attr : Nat)
  deriving DecidableEq, Repr

/-- The members of `HsaRunner` used by `hsa_runner.cpp`, followed by three ghost
fields: the stores made so far, the runtime calls made so far, and the resources
currently held. `_dispatch_packet` is the slot number the pointer designates. The
members of `setup_executable` come last: the code object handle, the state of the
executable `_executable` designates, and (ghost) the states that executable has gone
through since its creation, oldest first. -/
structure HsaRunner where
  _agent : Nat
  _queue_size : Nat
  _queue : hsa_queue_t
  _signal : Nat
  _code_object_handle : Nat
  _group_static_size : Nat
  _group_dynamic_size : Nat
  _dispatch_packet_index : Nat
  _dispatch_packet : Nat
  writes : List MemWrite
  calls : List RuntimeCall
  live : List Resource
  _code_object : Nat := 0
  _executable : ExecutableState := ExecutableState.absent
  executable_states : List ExecutableState := []

namespace HsaRunner

/-! ## Primitive operations on the reserved packet and the queue -/

/-- The bytes of the packet `_dispatch_packet` points to. -/
def packet (self : HsaRunner) : Bytes :=
  self._queue.base_address self._dispatch_packet

/-- Read of a packet member of `width` bytes at offset `off`. -/
def packet_load (self : HsaRunner) (off width : Nat) : Nat :=
  load_le self.packet off width

/-- Replace the bytes of the packet `_dispatch_packet` points to. -/
def set_packet (self : HsaRunner) (b : Bytes) : HsaRunner :=
  { self with _queue := { self._queue with
      base_address := Function.update self._queue.base_address self._dispatch_packet b } }

/-- Plain assignment to a packet member of `width` bytes at offset `off`. -/
def packet_store (self : HsaRunner) (off width val : Nat) : HsaRunner :=
  { set_packet self (store_le self.packet off width val) with
      writes := self.writes ++ [MemWrite.packet self._dispatch_packet off width false] }

/-- The call `memset((uint8_t*)_dispatch_packet + off, byte, len)`. -/
def packet_memset (self : HsaRunner) (off byte len : Nat) : HsaRunner :=
  { set_packet self (memset self.packet off byte len) with
      writes := self.writes ++ [MemWrite.packet self._dispatch_packet off len false] }

/-- The builtin `__atomic_store_n((uint32_t*)_dispatch_packet, val, __ATOMIC_RELEASE)`. -/
def packet_atomic_store_release (self : HsaRunner) (val : Nat) : HsaRunner :=
  { set_packet self (store_le self.packet 0 4 val) with
      writes := self.writes ++ [MemWrite.packet self._dispatch_packet 0 4 true] }

/-- HSA runtime `hsa_queue_add_write_index_relaxed(queue, n)`: atomically adds `n` to
the 64-bit write index and returns its previous value. -/
def hsa_queue_add_write_index_relaxed (self : HsaRunner) (n : Nat) : Nat × HsaRunner :=
  let old := self._queue.write_index
  let new := (old + n) % 2 ^ 64
  (old, { self with
      _queue := { self._queue with write_index := new }
      writes := self.writes ++ [MemWrite.write_index old new] })

/-- HSA runtime `hsa_signal_store_relaxed(_queue->doorbell_signal, val)`. -/
def hsa_signal_store_relaxed (self : HsaRunner) (val : Nat) : HsaRunner :=
  { self with
      _queue := { self._queue with doorbell_signal := val }
      writes := self.writes ++ [MemWrite.doorbell val] }

/-! ## `HsaRunner::setup_dispatch_packet` -/

/-- The local `queue_mask`: `_queue->size - 1` in 32-bit unsigned arithmetic. -/
def queue_mask (self : HsaRunner) : Nat :=
  (self._queue.size + 2 ^ 32 - 1) % 2 ^ 32

/-- The slot selected for write index `index`: `index & queue_mask`. -/
def packet_slot (self : HsaRunner) (index : Nat) : Nat :=
  index &&& self.queue_mask

/-- `HsaRunner::setup_dispatch_packet`. -/
def setup_dispatch_packet (self : HsaRunner) (params : KernelParams) : Bool × HsaRunner :=
  let queue_mask := self.queue_mask
  let (index, self) := hsa_queue_add_write_index_relaxed self 1
  let self := { self with _dispatch_packet_index := index }
  let self := { self with _dispatch_packet := self._dispatch_packet_index &&& queue_mask }
  let self := packet_memset self 4 0 (sizeof_packet - 4)
  let self := packet_store self off_completion_signal 8 self._signal
  let self := packet_store self off_workgroup_size_x 2 params.workgroup_size_x
  let self := packet_store self off_workgroup_size_y 2 params.workgroup_size_y
  let self := packet_store self off_workgroup_size_z 2 params.workgroup_size_z
  let self := packet_store self off_grid_size_x 4 params.grid_x
  let self := packet_store self off_grid_size_y 4 params.grid_y
  let self := packet_store self off_grid_size_z 4 params.grid_z
  let self := packet_store self off_group_segment_size 4 0
  let self := packet_store self off_private_segment_size 4 0
  let self := packet_store self off_kernel_object 8 self._code_object_handle
  let self := packet_store self off_kernarg_address 8 params.kernarg_ptr
  (true, self)

/-! ## `HsaRunner::dispatch_kernel` -/

/-- The local `header` of `dispatch_kernel`, a `uint16_t`. -/
def dispatch_header : Nat :=
  ((HSA_PACKET_TYPE_KERNEL_DISPATCH <<< HSA_PACKET_HEADER_TYPE) |||
   (1 <<< HSA_PACKET_HEADER_BARRIER) |||
   (HSA_FENCE_SCOPE_SYSTEM <<< HSA_PACKET_HEADER_ACQUIRE_FENCE_SCOPE) |||
   (HSA_FENCE_SCOPE_SYSTEM <<< HSA_PACKET_HEADER_RELEASE_FENCE_SCOPE)) % 2 ^ 16

/-- The local `dim` of `dispatch_kernel`, from the grid sizes read in the packet. -/
def dispatch_dim (grid_size_y grid_size_z : Nat) : Nat :=
  let dim := 1
  let dim := if grid_size_y > 1 then 2 else dim
  let dim := if grid_size_z > 1 then 3 else dim
  dim

/-- The local `header32` of `dispatch_kernel` for a given `dim`. -/
def dispatch_header32 (dim : Nat) : Nat :=
  let setup := (dim <<< HSA_KERNEL_DISPATCH_PACKET_SETUP_DIMENSIONS) % 2 ^ 16
  (dispatch_header ||| (setup <<< 16)) % 2 ^ 32

/-- `HsaRunner::dispatch_kernel`. -/
def dispatch_kernel (self : HsaRunner) : Bool × HsaRunner :=
  let dim := dispatch_dim (self.packet_load off_grid_size_y 4) (self.packet_load off_grid_size_z 4)
  let self := packet_store self off_group_segment_size 4
    ((self._group_static_size + self._group_dynamic_size) % 2 ^ 32)
  let header32 := dispatch_header32 dim
  let self := packet_atomic_store_release self header32
  let self := hsa_signal_store_relaxed self self._dispatch_packet_index
  (true, self)

end HsaRunner

/-! ## `HsaRunner::init` -/

/-- Outcomes of the calls `init` makes: the status each device-runtime call returns
and the value it writes through its output pointer. `found_agent` is the handle the
callback `find_gpu_device` stores into `_agent` during agent iteration, if it stores
one; `setup_memory_regions` is the result of `_mem.setup_memory_regions`. -/
structure RuntimeOutcomes where
  hsa_init : Nat
  hsa_iterate_agents : Nat
  found_agent : Option Nat
  agent_info_name : Nat
  agent_info_queue_max_size : Nat
  queue_max_size : Nat
  hsa_queue_create : Nat
  created_queue : hsa_queue_t
  hsa_signal_create : Nat
  created_signal : Nat
  setup_memory_regions : Bool

/-- Modelled from the spec: `hsa_error` is defined in `hsa_utils.hpp`; it reports the
failed operation with the underlying status code and yields the failure result that
the caller returns. -/
def hsa_error (_msg : String) (_status : Nat) : Bool := false

namespace HsaRunner

/-- Log a call and, when it succeeded, the resource it acquired. -/
def runtime_call (self : HsaRunner) (c : RuntimeCall) (status : Nat)
    (acquired : List Resource) : HsaRunner :=
  { self with
      calls := self.calls ++ [c]
      live := if status = HSA_STATUS_SUCCESS then acquired ++ self.live else self.live }

/-- `HsaRunner::init`. Each runtime call is logged with the status it returns; the
print of the agent name to `std::cout` has no effect on the session and is left out. -/
def init (self : HsaRunner) (o : RuntimeOutcomes) : Bool × HsaRunner :=
  let status := o.hsa_init
  let self := runtime_call self RuntimeCall.hsa_init status [Resource.runtime]
  if status ≠ HSA_STATUS_SUCCESS then (hsa_error ("hsa_init failed") status, self) else
  let status := o.hsa_iterate_agents
  let self := runtime_call self RuntimeCall.hsa_iterate_agents status []
  let self := { self with _agent := o.found_agent.getD self._agent }
  if status ≠ HSA_STATUS_SUCCESS ∨ self._agent = 0 then
    (hsa_error ("Unable to find a suitable GPU") status, self) else
  let status := o.agent_info_name
  let self := runtime_call self
    (RuntimeCall.hsa_agent_get_info self._agent HSA_AGENT_INFO_NAME) status []
  if status ≠ HSA_STATUS_SUCCESS then
    (hsa_error ("Failed to get HSA_AGENT_INFO_NAME") status, self) else
  let status := o.agent_info_queue_max_size
  let self := runtime_call self
    (RuntimeCall.hsa_agent_get_info self._agent HSA_AGENT_INFO_QUEUE_MAX_SIZE) status []
  let self := if status = HSA_STATUS_SUCCESS
    then { self with _queue_size := o.queue_max_size } else self
  if status ≠ HSA_STATUS_SUCCESS then
    (hsa_error ("Failed to get HSA_AGENT_INFO_QUEUE_MAX_SIZE") status, self) else
  let status := o.hsa_queue_create
  let self := runtime_call self
    (RuntimeCall.hsa_queue_create self._agent self._queue_size HSA_QUEUE_TYPE_MULTI
      UINT32_MAX UINT32_MAX) status [Resource.queue]
  let self := if status = HSA_STATUS_SUCCESS
    then { self with _queue := o.created_queue } else self
  if status ≠ HSA_STATUS_SUCCESS then
    (hsa_error ("hsa_queue_create failed") status, self) else
  let status := o.hsa_signal_create
  let self := runtime_call self (RuntimeCall.hsa_signal_create 1 0) status [Resource.signal]
  let self := if status = HSA_STATUS_SUCCESS
    then { self with _signal := o.created_signal } else self
  if status ≠ HSA_STATUS_SUCCESS then
    (hsa_error ("hsa_signal_create failed") status, self) else
  let self := { self with calls := self.calls ++ [RuntimeCall.setup_memory_regions self._agent] }
  (o.setup_memory_regions, self)

end HsaRunner

/-! ## `HsaRunner::setup_executable` -/

/-- Outcomes of the calls `setup_executable` makes: the result of the code-object
reader `load_code_object` with the handle it stores into `_code_object`, the status of
each device-runtime call and the value it writes through its output pointer. -/
structure ExecutableOutcomes where
  load_code_object : Bool
  code_object : Nat
  hsa_executable_create : Nat
  hsa_executable_load_code_object : Nat
  hsa_executable_freeze : Nat
  hsa_executable_get_symbol : Nat
  symbol : Nat
  symbol_info_kernel_object : Nat
  kernel_object : Nat
  symbol_info_group_segment_size : Nat
  group_segment_size : Nat

/-- The state of an executable created by `hsa_executable_create` with the given
`executable_state` argument. -/
def created_executable_state (executable_state : Nat) : ExecutableState :=
  if executable_state = HSA_EXECUTABLE_STATE_UNFROZEN then ExecutableState.unfrozen
  else ExecutableState.frozen

namespace HsaRunner

/-- A successful `hsa_executable_create` makes `_executable` designate a new
executable in state `s`. -/
def executable_created (self : HsaRunner) (s : ExecutableState) : HsaRunner :=
  { self with _executable := s, executable_states := [s] }

/-- A successful runtime call moves the executable `_executable` designates to
state `s`. -/
def executable_moved (self : HsaRunner) (s : ExecutableState) : HsaRunner :=
  { self with _executable := s, executable_states := self.executable_states ++ [s] }

/-- `HsaRunner::setup_executable`. The allocator passed to `load_code_object` has no
effect on the members read here and is left out. -/
def setup_executable (self : HsaRunner) (code_object_path symbol_name : String)
    (o : ExecutableOutcomes) : Bool × HsaRunner :=
  let self := { self with calls := self.calls ++ [RuntimeCall.load_code_object code_object_path] }
  let self := if o.load_code_object then { self with _code_object := o.code_object } else self
  if !o.load_code_object then (false, self) else
  let status := o.hsa_executable_create
  let self := runtime_call self
    (RuntimeCall.hsa_executable_create HSA_PROFILE_FULL HSA_EXECUTABLE_STATE_UNFROZEN) status []
  let self := if status = HSA_STATUS_SUCCESS
    then executable_created self (created_executable_state HSA_EXECUTABLE_STATE_UNFROZEN)
    else self
  if status ≠ HSA_STATUS_SUCCESS then
    (hsa_error ("hsa_executable_create failed") status, self) else
  let status := o.hsa_executable_load_code_object
  let self := runtime_call self
    (RuntimeCall.hsa_executable_load_code_object self._executable self._agent self._code_object)
    status []
  let self := if status = HSA_STATUS_SUCCESS
    then executable_moved self ExecutableState.loaded else self
  if status ≠ HSA_STATUS_SUCCESS then
    (hsa_error ("hsa_executable_load_code_object failed") status, self) else
  let status := o.hsa_executable_freeze
  let self := runtime_call self (RuntimeCall.hsa_executable_freeze self._executable) status []
  let self := if status = HSA_STATUS_SUCCESS
    then executable_moved self ExecutableState.frozen else self
  if status ≠ HSA_STATUS_SUCCESS then
    (hsa_error ("hsa_executable_freeze failed") status, self) else
  let status := o.hsa_executable_get_symbol
  let self := runtime_call self
    (RuntimeCall.hsa_executable_get_symbol self._executable symbol_name self._agent) status []
  let _symbol := o.symbol
  if status ≠ HSA_STATUS_SUCCESS then
    (hsa_error ("hsa_executable_get_symbol failed") status, self) else
  let status := o.symbol_info_kernel_object
  let self := runtime_call self
    (RuntimeCall.hsa_executable_symbol_get_info _symbol HSA_EXECUTABLE_SYMBOL_INFO_KERNEL_OBJECT)
    status []
  let self := if status = HSA_STATUS_SUCCESS
    then { self with _code_object_handle := o.kernel_object } else self
  if status ≠ HSA_STATUS_SUCCESS then
    (hsa_error ("hsa_executable_symbol_get_info failed") status, self) else
  let status := o.symbol_info_group_segment_size
  let self := runtime_call self
    (RuntimeCall.hsa_executable_symbol_get_info _symbol
      HSA_EXECUTABLE_SYMBOL_INFO_KERNEL_GROUP_SEGMENT_SIZE) status []
  let self := if status = HSA_STATUS_SUCCESS
    then { self with _group_static_size := o.group_segment_size } else self
  if status ≠ HSA_STATUS_SUCCESS then
    (hsa_error ("hsa_executable_symbol_get_info failed") status, self) else
  (true, self)

end HsaRunner

/-- A runner before `init`: no agent selected, nothing logged, nothing held. -/
def HsaRunner.fresh : HsaRunner :=
  { _agent := 0, _queue_size := 0,
    _queue := { size := 0, base_address := fun _ _ => 0, write_index := 0, doorbell_signal := 0 },
    _signal := 0, _code_object_handle := 0, _group_static_size := 0, _group_dynamic_size := 0,
    _dispatch_packet_index := 0, _dispatch_packet := 0, writes := [], calls := [], live := [] }

/-- All runtime calls succeed and a device with handle 7 is found. -/
def RuntimeOutcomes.all_ok : RuntimeOutcomes :=
  { hsa_init := 0, hsa_iterate_agents := 0, found_agent := some 7, agent_info_name := 0,
    agent_info_queue_max_size := 0, queue_max_size := 128, hsa_queue_create := 0,
    created_queue := { size := 128, base_address := fun _ _ => 0, write_index := 0,
                       doorbell_signal := 0 },
    hsa_signal_create := 0, created_signal := 9, setup_memory_regions := true }

/-- A session ready to dispatch: a queue of 4 slots whose write index is 5 and whose
ring still holds the bytes 255 of earlier packets, a kernel with 16 bytes of static
group memory and no dynamic group memory. -/
def HsaRunner.sample : HsaRunner :=
  { _agent := 7, _queue_size := 4,
    _queue := { size := 4, base_address := fun _ _ => 255, write_index := 5,
                doorbell_signal := 0 },
    _signal := 9, _code_object_handle := 4096, _group_static_size := 16,
    _group_dynamic_size := 0, _dispatch_packet_index := 0, _dispatch_packet := 0,
    writes := [], calls := [], live := [Resource.signal, Resource.queue, Resource.runtime] }

/-- The session `sample` before its kernel is resolved, with one byte of dynamic group
memory requested. -/
def HsaRunner.sample_dynamic_one : HsaRunner :=
  { HsaRunner.sample with _code_object_handle := 0, _group_static_size := 0,
                          _group_dynamic_size := 1 }

/-- Workgroup (64,1,1), grid (1024,1,1), kernel arguments at address 8192. -/
def KernelParams.sample : KernelParams :=
  { workgroup_size_x := 64, workgroup_size_y := 1, workgroup_size_z := 1,
    grid_x := 1024, grid_y := 1, grid_z := 1, kernarg_ptr := 8192 }

/-- The store writes byte `a` of the packet in `slot`. -/
def MemWrite.covers (slot a : Nat) : MemWrite → Bool
  | .packet s off len _ => s == slot && decide (off ≤ a) && decide (a < off + len)
  | _ => false

/-- The store writes some byte of the header word (bytes 0 to 3) of the packet in `slot`. -/
def MemWrite.touches_header (slot : Nat) (w : MemWrite) : Bool :=
  (List.range 4).any (fun a => w.covers slot a)

/-- The store writes some byte of the body (bytes 4 to 63) of the packet in `slot`. -/
def MemWrite.touches_body (slot : Nat) (w : MemWrite) : Bool :=
  (List.range 60).any (fun a => w.covers slot (a + 4))

/-- The values of `params` are in the range of their types: the workgroup and the grid
dimensions are `unsigned` (32 bits), the kernel-argument pointer has 64 bits. -/
def KernelParams.in_range (p : KernelParams) : Prop :=
  p.workgroup_size_x < 2 ^ 32 ∧ p.workgroup_size_y < 2 ^ 32 ∧ p.workgroup_size_z < 2 ^ 32 ∧
  p.grid_x < 2 ^ 32 ∧ p.grid_y < 2 ^ 32 ∧ p.grid_z < 2 ^ 32 ∧ p.kernarg_ptr < 2 ^ 64

/-- The parameters `sample` with a workgroup size of 65600 on the x axis, a value of
type `unsigned` that does not fit the 16 bits of the packet member. -/
def KernelParams.sample_wide_workgroup : KernelParams :=
  { KernelParams.sample with workgroup_size_x := 65600 }

/-- The signal handle and the kernel object handle of the session are 64-bit values. -/
def HsaRunner.handles_in_range (self : HsaRunner) : Prop :=
  self._signal < 2 ^ 64 ∧ self._code_object_handle < 2 ^ 64

/-- The session `self` with the ring buffer content replaced by `ring`. -/
def HsaRunner.with_ring (self : HsaRunner) (ring : Nat → Bytes) : HsaRunner :=
  { self with _queue := { self._queue with base_address := ring } }

/-- The signal creation fails with status 4096 after the runtime was initialised and
the queue created. -/
def RuntimeOutcomes.signal_fails : RuntimeOutcomes :=
  { RuntimeOutcomes.all_ok with hsa_signal_create := 4096 }

/-- The calls of a complete run of `init`, in program order, for the selected device
`agent` and the queue size `queue_size` it reports. -/
def init_calls (agent queue_size : Nat) : List RuntimeCall :=
  [RuntimeCall.hsa_init,
   RuntimeCall.hsa_iterate_agents,
   RuntimeCall.hsa_agent_get_info agent HSA_AGENT_INFO_NAME,
   RuntimeCall.hsa_agent_get_info agent HSA_AGENT_INFO_QUEUE_MAX_SIZE,
   RuntimeCall.hsa_queue_create agent queue_size HSA_QUEUE_TYPE_MULTI UINT32_MAX UINT32_MAX,
   RuntimeCall.hsa_signal_create 1 0,
   RuntimeCall.setup_memory_regions agent]

/-- Whether each step of `init` succeeds, in program order, when `_agent` holds
`agent0` on entry: runtime initialisation, agent iteration with a non-zero handle
selected, the two agent-info queries, queue creation, signal creation, memory-region
setup. -/
def init_steps (agent0 : Nat) (o : RuntimeOutcomes) : List Bool :=
  [decide (o.hsa_init = HSA_STATUS_SUCCESS),
   decide (o.hsa_iterate_agents = HSA_STATUS_SUCCESS ∧ o.found_agent.getD agent0 ≠ 0),
   decide (o.agent_info_name = HSA_STATUS_SUCCESS),
   decide (o.agent_info_queue_max_size = HSA_STATUS_SUCCESS),
   decide (o.hsa_queue_create = HSA_STATUS_SUCCESS),
   decide (o.hsa_signal_create = HSA_STATUS_SUCCESS),
   o.setup_memory_regions]

/-- Number of steps before the first one that fails. -/
def steps_before_failure (steps : List Bool) : Nat :=
  (steps.takeWhile (fun b => b)).length

/-- The call releases a resource. -/
def RuntimeCall.is_release : RuntimeCall → Bool
  | .hsa_signal_destroy => true
  | .hsa_queue_destroy => true
  | .hsa_shut_down => true
  | _ => false

/-- The calls of a complete run of `setup_executable`, in program order, for the
device `agent`, the code object handle `code_object` the reader stores and the symbol
handle `symbol` the lookup returns. The executable is unfrozen when the code object is
loaded into it, loaded when it is frozen, frozen when the symbol is looked up. -/
def setup_executable_calls (code_object_path symbol_name : String)
    (agent code_object symbol : Nat) : List RuntimeCall :=
  [RuntimeCall.load_code_object code_object_path,
   RuntimeCall.hsa_executable_create HSA_PROFILE_FULL HSA_EXECUTABLE_STATE_UNFROZEN,
   RuntimeCall.hsa_executable_load_code_object ExecutableState.unfrozen agent code_object,
   RuntimeCall.hsa_executable_freeze ExecutableState.loaded,
   RuntimeCall.hsa_executable_get_symbol ExecutableState.frozen symbol_name agent,
   RuntimeCall.hsa_executable_symbol_get_info symbol HSA_EXECUTABLE_SYMBOL_INFO_KERNEL_OBJECT,
   RuntimeCall.hsa_executable_symbol_get_info symbol
     HSA_EXECUTABLE_SYMBOL_INFO_KERNEL_GROUP_SEGMENT_SIZE]

/-- Whether each step of `setup_executable` succeeds, in program order: reading the
code object, creating the executable, loading the code object into it, freezing it,
looking the symbol up, the two symbol-info queries. -/
def setup_executable_steps (o : ExecutableOutcomes) : List Bool :=
  [o.load_code_object,
   decide (o.hsa_executable_create = HSA_STATUS_SUCCESS),
   decide (o.hsa_executable_load_code_object = HSA_STATUS_SUCCESS),
   decide (o.hsa_executable_freeze = HSA_STATUS_SUCCESS),
   decide (o.hsa_executable_get_symbol = HSA_STATUS_SUCCESS),
   decide (o.symbol_info_kernel_object = HSA_STATUS_SUCCESS),
   decide (o.symbol_info_group_segment_size = HSA_STATUS_SUCCESS)]

/-- The call resolves a symbol: the lookup by name or a symbol-info query. -/
def RuntimeCall.is_symbol_resolution : RuntimeCall → Bool
  | .hsa_executable_get_symbol _ _ _ => true
  | .hsa_executable_symbol_get_info _ _ => true
  | _ => false

/-- Position of a state on the path absent, unfrozen, loaded, frozen. -/
def ExecutableState.rank : ExecutableState → Nat
  | .absent => 0
  | .unfrozen => 1
  | .loaded => 2
  | .frozen => 3

/-- Every step of `setup_executable` succeeds: code object 3, symbol 11, kernel object
4096 with 16 bytes of static group memory. -/
def ExecutableOutcomes.all_ok : ExecutableOutcomes :=
  { load_code_object := true, code_object := 3, hsa_executable_create := 0,
    hsa_executable_load_code_object := 0, hsa_executable_freeze := 0,
    hsa_executable_get_symbol := 0, symbol := 11, symbol_info_kernel_object := 0,
    kernel_object := 4096, symbol_info_group_segment_size := 0, group_segment_size := 16 }

/-- Freezing fails with status 4096 after the code object was loaded. -/
def ExecutableOutcomes.freeze_fails : ExecutableOutcomes :=
  { ExecutableOutcomes.all_ok with hsa_executable_freeze := 4096 }

/-- Every step of `setup_executable` succeeds and the runtime reports a static
group-segment size of `2^32 - 1` bytes for the kernel, the largest 32-bit value. -/
def ExecutableOutcomes.large_static : ExecutableOutcomes :=
  { ExecutableOutcomes.all_ok with group_segment_size := 4294967295 }

/-- The executable was created, loaded and frozen with success: the first four steps
of `setup_executable` all succeed. -/
def ExecutableOutcomes.frozen_ok (o : ExecutableOutcomes) : Prop :=
  o.load_code_object = true ∧ o.hsa_executable_create = HSA_STATUS_SUCCESS ∧
  o.hsa_executable_load_code_object = HSA_STATUS_SUCCESS ∧
  o.hsa_executable_freeze = HSA_STATUS_SUCCESS

/-- Grid size on axis `d` (1 = x, 2 = y, 3 = z). -/
def grid_axis (gx gy gz d : Nat) : Nat :=
  if d = 1 then gx else if d = 2 then gy else gz

/-! ## Memory lemmas -/

theorem store_le_apply_of_mem (m : Bytes) (off width val a : Nat)
    (h : off ≤ a ∧ a < off + width) :
    store_le m off width val a = (val / 256 ^ (a - off)) % 256 := by
  simp [store_le, h]

theorem store_le_apply_of_not_mem (m : Bytes) (off width val a : Nat)
    (h : a < off ∨ off + width ≤ a) : store_le m off width val a = m a := by
  have : ¬ (off ≤ a ∧ a < off + width) := by omega
  simp [store_le, this]

theorem memset_apply_of_mem (m : Bytes) (off byte len a : Nat)
    (h : off ≤ a ∧ a < off + len) : memset m off byte len a = byte % 256 := by
  simp [memset, h]

theorem memset_apply_of_not_mem (m : Bytes) (off byte len a : Nat)
    (h : a < off ∨ off + len ≤ a) : memset m off byte len a = m a := by
  have : ¬ (off ≤ a ∧ a < off + len) := by omega
  simp [memset, this]

/-- A load only depends on the bytes it covers. -/
theorem load_le_congr (m m2 : Bytes) (n : Nat) :
    ∀ off : Nat, (∀ a, off ≤ a → a < off + n → m a = m2 a) →
      load_le m off n = load_le m2 off n := by
  induction n with
  | zero => intro off _; rfl
  | succ n ih =>
    intro off h
    simp only [load_le]
    rw [h off (Nat.le_refl _) (by omega), ih (off + 1) (fun a h1 h2 => h a (by omega) (by omega))]

/-- Loading inside a stored value reads the corresponding bytes of the value. -/
theorem load_le_store_le_inside (m : Bytes) (off width val : Nat) (n : Nat) :
    ∀ k : Nat, k + n ≤ width →
      load_le (store_le m off width val) (off + k) n = (val / 256 ^ k) % 256 ^ n := by
  induction n with
  | zero => intro k _; simp [load_le, Nat.mod_one]
  | succ n ih =>
    intro k hk
    simp only [load_le]
    rw [store_le_apply_of_mem m off width val (off + k) (by omega)]
    have e : off + k + 1 = off + (k + 1) := by omega
    rw [e, ih (k + 1) (by omega)]
    have e2 : off + k - off = k := by omega
    rw [e2, show 256 ^ (n + 1) = 256 * 256 ^ n from pow_succ' 256 n, Nat.mod_mul,
      show 256 ^ (k + 1) = 256 ^ k * 256 from pow_succ 256 k, ← Nat.div_div_eq_div_mul]

theorem load_le_store_le_same (m : Bytes) (off width val : Nat) :
    load_le (store_le m off width val) off width = val % 256 ^ width := by
  have h := load_le_store_le_inside m off width val width 0 (by omega)
  simpa using h

theorem load_le_store_le_other (m : Bytes) (off width val o n : Nat)
    (h : o + n ≤ off ∨ off + width ≤ o) :
    load_le (store_le m off width val) o n = load_le m o n := by
  apply load_le_congr
  intro a h1 h2
  exact store_le_apply_of_not_mem m off width val a (by omega)

theorem load_le_memset_other (m : Bytes) (off byte len o n : Nat)
    (h : o + n ≤ off ∨ off + len ≤ o) :
    load_le (memset m off byte len) o n = load_le m o n := by
  apply load_le_congr
  intro a h1 h2
  exact memset_apply_of_not_mem m off byte len a (by omega)

theorem load_le_zero (m : Bytes) (n : Nat) :
    ∀ off : Nat, (∀ a, off ≤ a → a < off + n → m a = 0) → load_le m off n = 0 := by
  induction n with
  | zero => intro off _; rfl
  | succ n ih =>
    intro off h
    simp only [load_le]
    rw [h off (Nat.le_refl _) (by omega), ih (off + 1) (fun a h1 h2 => h a (by omega) (by omega))]

namespace HsaRunner

/-! ## Effect of the primitive operations -/

@[simp] theorem packet_set_packet (self : HsaRunner) (b : Bytes) :
    (set_packet self b).packet = b := by
  simp [packet, set_packet]

@[simp] theorem packet_packet_store (self : HsaRunner) (off width val : Nat) :
    (packet_store self off width val).packet = store_le self.packet off width val := by
  simp [packet, packet_store, set_packet]

@[simp] theorem packet_packet_memset (self : HsaRunner) (off byte len : Nat) :
    (packet_memset self off byte len).packet = memset self.packet off byte len := by
  simp [packet, packet_memset, set_packet]

@[simp] theorem packet_packet_atomic_store_release (self : HsaRunner) (val : Nat) :
    (packet_atomic_store_release self val).packet = store_le self.packet 0 4 val := by
  simp [packet, packet_atomic_store_release, set_packet]

@[simp] theorem packet_hsa_signal_store_relaxed (self : HsaRunner) (val : Nat) :
    (hsa_signal_store_relaxed self val).packet = self.packet := by
  simp [packet, hsa_signal_store_relaxed]

/-- The packet bytes after `dispatch_kernel`. -/
theorem packet_dispatch_kernel (self : HsaRunner) :
    (dispatch_kernel self).2.packet =
      store_le (store_le self.packet off_group_segment_size 4
        ((self._group_static_size + self._group_dynamic_size) % 2 ^ 32)) 0 4
        (dispatch_header32 (dispatch_dim (self.packet_load off_grid_size_y 4)
          (self.packet_load off_grid_size_z 4))) := by
  simp [dispatch_kernel]

theorem dispatch_header_eq : dispatch_header = 0x1502 := by decide

theorem dispatch_dim_cases (gy gz : Nat) :
    dispatch_dim gy gz = 1 ∨ dispatch_dim gy gz = 2 ∨ dispatch_dim gy gz = 3 := by
  unfold dispatch_dim
  by_cases h1 : gz > 1 <;> by_cases h2 : gy > 1 <;> simp [h1, h2]

theorem dispatch_header32_lt (dim : Nat) : dispatch_header32 dim < 2 ^ 32 := by
  unfold dispatch_header32
  exact Nat.mod_lt _ (by norm_num)

end HsaRunner

/-! ## Dimensionality and header encoding -/

namespace HsaRunner

/-- The setup half-word published by `dispatch_kernel` is the derived dimensionality. -/
theorem setup_after_dispatch_kernel (self : HsaRunner) :
    (dispatch_kernel self).2.packet_load off_setup 2 =
      dispatch_dim (self.packet_load off_grid_size_y 4) (self.packet_load off_grid_size_z 4) := by
  rw [show off_setup = 2 from rfl]
  simp only [packet_load, packet_dispatch_kernel]
  have h := load_le_store_le_inside
    (store_le self.packet off_group_segment_size 4
      ((self._group_static_size + self._group_dynamic_size) % 2 ^ 32)) 0 4
    (dispatch_header32 (dispatch_dim (self.packet_load off_grid_size_y 4)
      (self.packet_load off_grid_size_z 4))) 2 2 (by norm_num)
  simp only [Nat.zero_add, packet_load] at h
  rw [h]
  rcases dispatch_dim_cases (load_le self.packet off_grid_size_y 4)
    (load_le self.packet off_grid_size_z 4) with e | e | e <;> rw [e] <;> decide

/-- The 32-bit word at the start of the packet after `dispatch_kernel`. -/
theorem word_after_dispatch_kernel (self : HsaRunner) :
    (dispatch_kernel self).2.packet_load 0 4 =
      dispatch_header32 (dispatch_dim (self.packet_load off_grid_size_y 4)
        (self.packet_load off_grid_size_z 4)) := by
  unfold packet_load
  rw [packet_dispatch_kernel, load_le_store_le_same]
  exact Nat.mod_eq_of_lt (dispatch_header32_lt _)

end HsaRunner

/-- C1: the dimensionality `dispatch_kernel` derives from the grid stored in the packet
is 3 when `grid_z > 1`, otherwise 2 when `grid_y > 1`, otherwise 1; it is the highest
axis whose grid size exceeds 1 (and 1 when none does), it is always 1, 2 or 3, grids
(4,1,1), (4,4,1), (4,4,4) give 1, 2, 3, and it is the value `dispatch_kernel` packs
into the setup half-word of the packet. -/
theorem C1_dispatch_dim_highest_axis (gx gy gz : Nat) :
    HsaRunner.dispatch_dim gy gz = (if gz > 1 then 3 else if gy > 1 then 2 else 1) ∧
    (HsaRunner.dispatch_dim gy gz = 1 ∨ HsaRunner.dispatch_dim gy gz = 2 ∨
      HsaRunner.dispatch_dim gy gz = 3) ∧
    (∀ d, 1 ≤ d ∧ d ≤ 3 ∧ grid_axis gx gy gz d > 1 → d ≤ HsaRunner.dispatch_dim gy gz) ∧
    (grid_axis gx gy gz (HsaRunner.dispatch_dim gy gz) > 1 ∨
      (HsaRunner.dispatch_dim gy gz = 1 ∧ gx ≤ 1 ∧ gy ≤ 1 ∧ gz ≤ 1)) ∧
    HsaRunner.dispatch_dim 1 1 = 1 ∧ HsaRunner.dispatch_dim 4 1 = 2 ∧
    HsaRunner.dispatch_dim 4 4 = 3 ∧
    (∀ self : HsaRunner,
      (HsaRunner.dispatch_kernel self).2.packet_load off_setup 2 =
        HsaRunner.dispatch_dim (self.packet_load off_grid_size_y 4)
          (self.packet_load off_grid_size_z 4)) := by
  refine ⟨?_, HsaRunner.dispatch_dim_cases gy gz, ?_, ?_, by decide, by decide, by decide,
    HsaRunner.setup_after_dispatch_kernel⟩
  · unfold HsaRunner.dispatch_dim
    by_cases h1 : gz > 1 <;> by_cases h2 : gy > 1 <;> simp [h1, h2]
  · rintro d ⟨hd1, hd3, hg⟩
    unfold HsaRunner.dispatch_dim
    unfold grid_axis at hg
    by_cases h1 : gz > 1 <;> by_cases h2 : gy > 1 <;> simp [h1, h2]
    · omega
    · omega
    · have hd : d = 1 ∨ d = 2 ∨ d = 3 := by omega
      rcases hd with e | e | e <;> simp [e] at hg <;> omega
    · have hd : d = 1 ∨ d = 2 ∨ d = 3 := by omega
      rcases hd with e | e | e <;> simp [e] at hg <;> omega
  · unfold HsaRunner.dispatch_dim grid_axis
    by_cases h1 : gz > 1 <;> by_cases h2 : gy > 1 <;> (simp [h1, h2]; try omega)

/-- C2: for `dim` in {1,2,3} the word `dispatch_kernel` stores at the start of the
packet is `0x1502 + dim * 65536`: kernel-dispatch type in the type field, barrier bit 1,
system scope in the acquire and release fence fields, `dim` in the dimensions field of
the setup half, no other bit set (the word is the sum of the shifted fields), every
field decodes back from the word, and the header half is non-zero. The last part
states that this is the word `dispatch_kernel` leaves in the first four bytes. -/
theorem C2_dispatch_header32_encoding (dim : Nat) (hdim : dim = 1 ∨ dim = 2 ∨ dim = 3) :
    HsaRunner.dispatch_header32 dim = 0x1502 + dim * 65536 ∧
    HsaRunner.dispatch_header32 dim =
      HSA_PACKET_TYPE_KERNEL_DISPATCH * 2 ^ HSA_PACKET_HEADER_TYPE +
      1 * 2 ^ HSA_PACKET_HEADER_BARRIER +
      HSA_FENCE_SCOPE_SYSTEM * 2 ^ HSA_PACKET_HEADER_ACQUIRE_FENCE_SCOPE +
      HSA_FENCE_SCOPE_SYSTEM * 2 ^ HSA_PACKET_HEADER_RELEASE_FENCE_SCOPE +
      dim * 2 ^ (16 + HSA_KERNEL_DISPATCH_PACKET_SETUP_DIMENSIONS) ∧
    HsaRunner.dispatch_header32 dim % 2 ^ 16 = HsaRunner.dispatch_header ∧
    HsaRunner.dispatch_header32 dim % 2 ^ 16 = 0x1502 ∧
    HsaRunner.dispatch_header32 dim % 2 ^ 16 ≠ 0 ∧
    (HsaRunner.dispatch_header32 dim >>> HSA_PACKET_HEADER_TYPE) %
      2 ^ HSA_PACKET_HEADER_WIDTH_TYPE = HSA_PACKET_TYPE_KERNEL_DISPATCH ∧
    (HsaRunner.dispatch_header32 dim >>> HSA_PACKET_HEADER_BARRIER) %
      2 ^ HSA_PACKET_HEADER_WIDTH_BARRIER = 1 ∧
    (HsaRunner.dispatch_header32 dim >>> HSA_PACKET_HEADER_ACQUIRE_FENCE_SCOPE) %
      2 ^ HSA_PACKET_HEADER_WIDTH_ACQUIRE_FENCE_SCOPE = HSA_FENCE_SCOPE_SYSTEM ∧
    (HsaRunner.dispatch_header32 dim >>> HSA_PACKET_HEADER_RELEASE_FENCE_SCOPE) %
      2 ^ HSA_PACKET_HEADER_WIDTH_RELEASE_FENCE_SCOPE = HSA_FENCE_SCOPE_SYSTEM ∧
    (HsaRunner.dispatch_header32 dim / 2 ^ 16 >>> HSA_KERNEL_DISPATCH_PACKET_SETUP_DIMENSIONS) %
      2 ^ HSA_KERNEL_DISPATCH_PACKET_SETUP_WIDTH_DIMENSIONS = dim ∧
    HsaRunner.dispatch_header32 dim / 2 ^ 16 = dim ∧
    (∀ self : HsaRunner,
      (HsaRunner.dispatch_kernel self).2.packet_load 0 4 =
        HsaRunner.dispatch_header32
          (HsaRunner.dispatch_dim (self.packet_load off_grid_size_y 4)
            (self.packet_load off_grid_size_z 4))) := by
  refine ⟨?_, ?_, ?_, ?_, ?_, ?_, ?_, ?_, ?_, ?_, ?_, HsaRunner.word_after_dispatch_kernel⟩ <;>
    rcases hdim with e | e | e <;> rw [e] <;> decide

/-- C2 at `dim = 1`: the published word is `0x11502`. -/
theorem C2_dispatch_header32_encoding_witness :
    HsaRunner.dispatch_header32 1 = 0x1502 + 1 * 65536 ∧
    HsaRunner.dispatch_header32 1 % 2 ^ 16 ≠ 0 :=
  ⟨(C2_dispatch_header32_encoding 1 (Or.inl rfl)).1,
   (C2_dispatch_header32_encoding 1 (Or.inl rfl)).2.2.2.2.1⟩

/-! ## Effect of `setup_dispatch_packet` and `dispatch_kernel` on the session -/

namespace HsaRunner

@[simp] theorem signal_packet_store (self : HsaRunner) (off width val : Nat) :
    (packet_store self off width val)._signal = self._signal := rfl

@[simp] theorem signal_packet_memset (self : HsaRunner) (off byte len : Nat) :
    (packet_memset self off byte len)._signal = self._signal := rfl

@[simp] theorem code_object_handle_packet_store (self : HsaRunner) (off width val : Nat) :
    (packet_store self off width val)._code_object_handle = self._code_object_handle := rfl

@[simp] theorem code_object_handle_packet_memset (self : HsaRunner) (off byte len : Nat) :
    (packet_memset self off byte len)._code_object_handle = self._code_object_handle := rfl

@[simp] theorem dispatch_packet_packet_store (self : HsaRunner) (off width val : Nat) :
    (packet_store self off width val)._dispatch_packet = self._dispatch_packet := rfl

@[simp] theorem dispatch_packet_packet_memset (self : HsaRunner) (off byte len : Nat) :
    (packet_memset self off byte len)._dispatch_packet = self._dispatch_packet := rfl

@[simp] theorem static_size_packet_store (self : HsaRunner) (off width val : Nat) :
    (packet_store self off width val)._group_static_size = self._group_static_size := rfl

@[simp] theorem static_size_packet_memset (self : HsaRunner) (off byte len : Nat) :
    (packet_memset self off byte len)._group_static_size = self._group_static_size := rfl

@[simp] theorem dynamic_size_packet_store (self : HsaRunner) (off width val : Nat) :
    (packet_store self off width val)._group_dynamic_size = self._group_dynamic_size := rfl

@[simp] theorem dynamic_size_packet_memset (self : HsaRunner) (off byte len : Nat) :
    (packet_memset self off byte len)._group_dynamic_size = self._group_dynamic_size := rfl

@[simp] theorem writes_packet_store (self : HsaRunner) (off width val : Nat) :
    (packet_store self off width val).writes =
      self.writes ++ [MemWrite.packet self._dispatch_packet off width false] := rfl

@[simp] theorem writes_packet_memset (self : HsaRunner) (off byte len : Nat) :
    (packet_memset self off byte len).writes =
      self.writes ++ [MemWrite.packet self._dispatch_packet off len false] := rfl

/-- The index kept by `setup_dispatch_packet` is the write index before the add. -/
theorem index_after_setup (self : HsaRunner) (params : KernelParams) :
    (setup_dispatch_packet self params).2._dispatch_packet_index = self._queue.write_index :=
  rfl

theorem write_index_after_setup (self : HsaRunner) (params : KernelParams) :
    (setup_dispatch_packet self params).2._queue.write_index =
      (self._queue.write_index + 1) % 2 ^ 64 := rfl

theorem slot_after_setup (self : HsaRunner) (params : KernelParams) :
    (setup_dispatch_packet self params).2._dispatch_packet =
      self.packet_slot self._queue.write_index := rfl

theorem static_size_after_setup (self : HsaRunner) (params : KernelParams) :
    (setup_dispatch_packet self params).2._group_static_size = self._group_static_size := by
  simp [setup_dispatch_packet, hsa_queue_add_write_index_relaxed]

theorem dynamic_size_after_setup (self : HsaRunner) (params : KernelParams) :
    (setup_dispatch_packet self params).2._group_dynamic_size = self._group_dynamic_size := by
  simp [setup_dispatch_packet, hsa_queue_add_write_index_relaxed]

theorem doorbell_after_dispatch_kernel (self : HsaRunner) :
    (dispatch_kernel self).2._queue.doorbell_signal = self._dispatch_packet_index := rfl

theorem write_index_after_dispatch_kernel (self : HsaRunner) :
    (dispatch_kernel self).2._queue.write_index = self._queue.write_index := rfl

/-- The bytes of the reserved packet after `setup_dispatch_packet`, as the stores of
the function applied in order to the previous content of the slot. -/
theorem packet_after_setup (self : HsaRunner) (params : KernelParams) :
    (setup_dispatch_packet self params).2.packet =
      store_le (store_le (store_le (store_le (store_le (store_le (store_le (store_le
        (store_le (store_le (store_le
          (memset (self._queue.base_address (self.packet_slot self._queue.write_index))
            4 0 (sizeof_packet - 4))
          off_completion_signal 8 self._signal)
          off_workgroup_size_x 2 params.workgroup_size_x)
          off_workgroup_size_y 2 params.workgroup_size_y)
          off_workgroup_size_z 2 params.workgroup_size_z)
          off_grid_size_x 4 params.grid_x)
          off_grid_size_y 4 params.grid_y)
          off_grid_size_z 4 params.grid_z)
          off_group_segment_size 4 0)
          off_private_segment_size 4 0)
          off_kernel_object 8 self._code_object_handle)
          off_kernarg_address 8 params.kernarg_ptr := by
  simp [setup_dispatch_packet, hsa_queue_add_write_index_relaxed, packet_slot]
  rfl

/-- The group segment size read back from the packet after `dispatch_kernel`. -/
theorem group_segment_size_after_dispatch_kernel (self : HsaRunner) :
    (dispatch_kernel self).2.packet_load off_group_segment_size 4 =
      (self._group_static_size + self._group_dynamic_size) % 2 ^ 32 := by
  unfold packet_load
  rw [packet_dispatch_kernel, load_le_store_le_other _ _ _ _ _ _ (by decide),
    load_le_store_le_same]
  exact Nat.mod_eq_of_lt (Nat.mod_lt _ (by norm_num))

/-- The group segment size read back from the packet after `setup_dispatch_packet`. -/
theorem group_segment_size_after_setup (self : HsaRunner) (params : KernelParams) :
    (setup_dispatch_packet self params).2.packet_load off_group_segment_size 4 = 0 := by
  unfold packet_load
  rw [packet_after_setup, load_le_store_le_other _ _ _ _ _ _ (by decide),
    load_le_store_le_other _ _ _ _ _ _ (by decide),
    load_le_store_le_other _ _ _ _ _ _ (by decide), load_le_store_le_same]
  rfl

/-- For a capacity `2^k` that fits 32 bits, the mask is `2^k - 1`. -/
theorem queue_mask_of_pow_two (self : HsaRunner) (k : Nat) (hk : k < 32)
    (hsize : self._queue.size = 2 ^ k) : self.queue_mask = 2 ^ k - 1 := by
  unfold queue_mask
  rw [hsize]
  have h1 : 1 ≤ 2 ^ k := Nat.one_le_two_pow
  have h2 : 2 ^ k ≤ 2 ^ 31 := Nat.pow_le_pow_right (by norm_num) (by omega)
  generalize 2 ^ k = n at h1 h2
  omega

theorem packet_slot_of_pow_two (self : HsaRunner) (k i : Nat) (hk : k < 32)
    (hsize : self._queue.size = 2 ^ k) : self.packet_slot i = i % 2 ^ k := by
  unfold packet_slot
  rw [queue_mask_of_pow_two self k hk hsize, Nat.and_pow_two_sub_one_eq_mod]

end HsaRunner

/-! ## Group segment size, doorbell value and slot selection -/

/-- C4 (as amended): after `setup_dispatch_packet` and `dispatch_kernel` the value
stored to the doorbell is the index returned by the reservation, which is the write
index of the queue before the reservation; the write index after the reservation is one
more (modulo `2^64`), so the doorbell value plus one is the new write index. -/
theorem C4_doorbell_is_reserved_index (self : HsaRunner) (params : KernelParams) :
    (HsaRunner.dispatch_kernel (HsaRunner.setup_dispatch_packet self params).2).2._queue.doorbell_signal
      = self._queue.write_index ∧
    (HsaRunner.dispatch_kernel (HsaRunner.setup_dispatch_packet self params).2).2._queue.doorbell_signal
      = (HsaRunner.setup_dispatch_packet self params).2._dispatch_packet_index ∧
    (HsaRunner.dispatch_kernel (HsaRunner.setup_dispatch_packet self params).2).2._queue.write_index
      = (self._queue.write_index + 1) % 2 ^ 64 ∧
    (HsaRunner.dispatch_kernel (HsaRunner.setup_dispatch_packet self params).2).2._queue.write_index
      = ((HsaRunner.dispatch_kernel
          (HsaRunner.setup_dispatch_packet self params).2).2._queue.doorbell_signal + 1) % 2 ^ 64 := by
  rw [HsaRunner.doorbell_after_dispatch_kernel, HsaRunner.write_index_after_dispatch_kernel,
    HsaRunner.index_after_setup, HsaRunner.write_index_after_setup]
  exact ⟨rfl, rfl, rfl, rfl⟩

/-- C4 counterexample: from write index 5 the reservation moves the write index to 6,
and the doorbell receives 5, not the new write index. -/
theorem C4_doorbell_is_not_new_write_index :
    HsaRunner.sample._queue.write_index = 5 ∧
    (HsaRunner.dispatch_kernel
      (HsaRunner.setup_dispatch_packet HsaRunner.sample KernelParams.sample).2).2._queue.write_index
      = 6 ∧
    (HsaRunner.dispatch_kernel
      (HsaRunner.setup_dispatch_packet HsaRunner.sample KernelParams.sample).2).2._queue.doorbell_signal
      = 5 ∧
    (HsaRunner.dispatch_kernel
      (HsaRunner.setup_dispatch_packet HsaRunner.sample KernelParams.sample).2).2._queue.doorbell_signal
      ≠ (HsaRunner.dispatch_kernel
      (HsaRunner.setup_dispatch_packet HsaRunner.sample KernelParams.sample).2).2._queue.write_index := by
  rw [HsaRunner.doorbell_after_dispatch_kernel, HsaRunner.write_index_after_dispatch_kernel,
    HsaRunner.index_after_setup, HsaRunner.write_index_after_setup]
  decide

/-- C7: for a queue whose capacity is a power of two (a 32-bit value) and a 64-bit
write index `i`, the slot `i & (capacity - 1)` selected by `setup_dispatch_packet` is
`i mod capacity`, hence below the capacity; the slot of the next index `i + 1` (modulo
`2^64`) is the next slot, wrapping from `capacity - 1` to 0. The last part states that
the slot `setup_dispatch_packet` selects is the one of the write index it reserved. -/
theorem C7_slot_is_index_mod_capacity (self : HsaRunner) (k i : Nat) (hk : k < 32)
    (hsize : self._queue.size = 2 ^ k) (hi : i < 2 ^ 64) :
    self.packet_slot i = i % self._queue.size ∧
    self.packet_slot i < self._queue.size ∧
    self.packet_slot ((i + 1) % 2 ^ 64) = (self.packet_slot i + 1) % self._queue.size ∧
    (self.packet_slot i + 1 < self._queue.size →
      self.packet_slot ((i + 1) % 2 ^ 64) = self.packet_slot i + 1) ∧
    (self.packet_slot i = self._queue.size - 1 → self.packet_slot ((i + 1) % 2 ^ 64) = 0) ∧
    (∀ params : KernelParams,
      (HsaRunner.setup_dispatch_packet self params).2._dispatch_packet =
        self.packet_slot self._queue.write_index ∧
      (HsaRunner.setup_dispatch_packet self params).2._dispatch_packet_index =
        self._queue.write_index) := by
  have hpos : 0 < 2 ^ k := Nat.pos_pow_of_pos k (by norm_num)
  have hnext : ((i + 1) % 2 ^ 64) % 2 ^ k = (i % 2 ^ k + 1) % 2 ^ k := by
    rw [Nat.mod_mod_of_dvd _ (pow_dvd_pow 2 (by omega : k ≤ 64)), Nat.add_mod (i % 2 ^ k) 1,
      Nat.mod_mod, ← Nat.add_mod]
  have _ := hi
  rw [HsaRunner.packet_slot_of_pow_two self k i hk hsize,
    HsaRunner.packet_slot_of_pow_two self k _ hk hsize, hsize, hnext]
  refine ⟨rfl, Nat.mod_lt _ hpos, rfl, fun h => Nat.mod_eq_of_lt h, fun h => ?_,
    fun params => ⟨rfl, rfl⟩⟩
  have e : i % 2 ^ k + 1 = 2 ^ k := by omega
  rw [e, Nat.mod_self]

/-- C7 at a queue of 4 slots and write index 7: slot 3, and index 8 wraps to slot 0. -/
theorem C7_slot_is_index_mod_capacity_witness :
    HsaRunner.sample.packet_slot 7 = 7 % HsaRunner.sample._queue.size ∧
    HsaRunner.sample.packet_slot 7 < HsaRunner.sample._queue.size ∧
    HsaRunner.sample.packet_slot ((7 + 1) % 2 ^ 64) =
      (HsaRunner.sample.packet_slot 7 + 1) % HsaRunner.sample._queue.size :=
  ⟨(C7_slot_is_index_mod_capacity HsaRunner.sample 2 7 (by decide) (by decide) (by decide)).1,
   (C7_slot_is_index_mod_capacity HsaRunner.sample 2 7 (by decide) (by decide) (by decide)).2.1,
   (C7_slot_is_index_mod_capacity HsaRunner.sample 2 7 (by decide) (by decide)
     (by decide)).2.2.1⟩

/-- C8 (as amended): the packet left in the slot by `setup_dispatch_packet` has
`group_segment_size = 0` whatever the static and dynamic scratch sizes are; the total
`static + dynamic` (modulo `2^32`) is stored by `dispatch_kernel`, which runs next. -/
theorem C8_setup_leaves_group_segment_size_zero (self : HsaRunner) (params : KernelParams) :
    (HsaRunner.setup_dispatch_packet self params).2.packet_load off_group_segment_size 4 = 0 ∧
    (HsaRunner.dispatch_kernel
      (HsaRunner.setup_dispatch_packet self params).2).2.packet_load off_group_segment_size 4 =
      (self._group_static_size + self._group_dynamic_size) % 2 ^ 32 := by
  refine ⟨HsaRunner.group_segment_size_after_setup self params, ?_⟩
  rw [HsaRunner.group_segment_size_after_dispatch_kernel, HsaRunner.static_size_after_setup,
    HsaRunner.dynamic_size_after_setup]

/-- C8 counterexample: for a kernel with 16 bytes of static group memory and no
dynamic request, the packet left by `setup_dispatch_packet` has `group_segment_size`
0, not 16. -/
theorem C8_setup_does_not_store_the_sum :
    HsaRunner.sample._group_static_size + HsaRunner.sample._group_dynamic_size = 16 ∧
    (HsaRunner.setup_dispatch_packet HsaRunner.sample KernelParams.sample).2.packet_load
      off_group_segment_size 4 = 0 ∧
    (HsaRunner.setup_dispatch_packet HsaRunner.sample KernelParams.sample).2.packet_load
      off_group_segment_size 4 ≠
      HsaRunner.sample._group_static_size + HsaRunner.sample._group_dynamic_size := by
  rw [HsaRunner.group_segment_size_after_setup]
  decide

/-! ## Order of the stores -/

namespace HsaRunner

/-- The stores made by `setup_dispatch_packet`, in program order. -/
theorem writes_after_setup (self : HsaRunner) (params : KernelParams) :
    (setup_dispatch_packet self params).2.writes =
      self.writes ++
        [MemWrite.write_index self._queue.write_index ((self._queue.write_index + 1) % 2 ^ 64),
         MemWrite.packet (self.packet_slot self._queue.write_index) 4 (sizeof_packet - 4) false,
         MemWrite.packet (self.packet_slot self._queue.write_index) off_completion_signal 8 false,
         MemWrite.packet (self.packet_slot self._queue.write_index) off_workgroup_size_x 2 false,
         MemWrite.packet (self.packet_slot self._queue.write_index) off_workgroup_size_y 2 false,
         MemWrite.packet (self.packet_slot self._queue.write_index) off_workgroup_size_z 2 false,
         MemWrite.packet (self.packet_slot self._queue.write_index) off_grid_size_x 4 false,
         MemWrite.packet (self.packet_slot self._queue.write_index) off_grid_size_y 4 false,
         MemWrite.packet (self.packet_slot self._queue.write_index) off_grid_size_z 4 false,
         MemWrite.packet (self.packet_slot self._queue.write_index) off_group_segment_size 4 false,
         MemWrite.packet (self.packet_slot self._queue.write_index) off_private_segment_size 4
           false,
         MemWrite.packet (self.packet_slot self._queue.write_index) off_kernel_object 8 false,
         MemWrite.packet (self.packet_slot self._queue.write_index) off_kernarg_address 8
           false] := by
  simp [setup_dispatch_packet, hsa_queue_add_write_index_relaxed, packet_slot]

/-- The stores made by `dispatch_kernel`, in program order. -/
theorem writes_after_dispatch_kernel (self : HsaRunner) :
    (dispatch_kernel self).2.writes =
      self.writes ++
        ([MemWrite.packet self._dispatch_packet off_group_segment_size 4 false] ++
         [MemWrite.packet self._dispatch_packet 0 4 true,
          MemWrite.doorbell self._dispatch_packet_index]) := by
  simp [dispatch_kernel, packet_atomic_store_release, hsa_signal_store_relaxed, packet_store,
    set_packet]

end HsaRunner

/-- A prefix of `A ++ [h, d]` that contains `h`, where `h` is not in `A`, contains
all of `A`. -/
theorem mem_take_of_mem_take_last {α : Type} (A : List α) (h d : α) (hA : h ∉ A) (n : Nat)
    (hn : h ∈ (A ++ [h, d]).take n) : ∀ w ∈ A, w ∈ (A ++ [h, d]).take n := by
  intro w hw
  by_cases hle : n ≤ A.length
  · rw [List.take_append_of_le_length hle] at hn
    exact absurd (List.mem_of_mem_take hn) hA
  · rw [List.take_append_eq_append_take, List.take_of_length_le (by omega)]
    exact List.mem_append_left _ hw

theorem MemWrite.touches_header_packet (slot s off len : Nat) (r : Bool) :
    (MemWrite.packet s off len r).touches_header slot =
      (decide (s = slot) && decide (off < 4) && decide (0 < len)) := by
  rw [Bool.eq_iff_iff]
  simp only [MemWrite.touches_header, MemWrite.covers, List.any_eq_true, List.mem_range,
    Bool.and_eq_true, beq_iff_eq, decide_eq_true_eq]
  constructor
  · rintro ⟨a, ha, ⟨h1, h2⟩, h3⟩
    exact ⟨⟨h1, by omega⟩, by omega⟩
  · rintro ⟨⟨h1, h2⟩, h3⟩
    exact ⟨off, h2, ⟨h1, Nat.le_refl _⟩, by omega⟩

theorem MemWrite.touches_body_packet (slot s off len : Nat) (r : Bool) :
    (MemWrite.packet s off len r).touches_body slot =
      (decide (s = slot) && decide (off < 64) && decide (4 < off + len) && decide (0 < len)) := by
  rw [Bool.eq_iff_iff]
  simp only [MemWrite.touches_body, MemWrite.covers, List.any_eq_true, List.mem_range,
    Bool.and_eq_true, beq_iff_eq, decide_eq_true_eq]
  constructor
  · rintro ⟨a, ha, ⟨h1, h2⟩, h3⟩
    exact ⟨⟨⟨h1, by omega⟩, by omega⟩, by omega⟩
  · rintro ⟨⟨⟨h1, h2⟩, h3⟩, h4⟩
    exact ⟨off - 4, by omega, ⟨h1, by omega⟩, by omega⟩

theorem MemWrite.touches_header_write_index (slot old new : Nat) :
    (MemWrite.write_index old new).touches_header slot = false := by
  simp [MemWrite.touches_header, MemWrite.covers]

theorem MemWrite.touches_header_doorbell (slot val : Nat) :
    (MemWrite.doorbell val).touches_header slot = false := by
  simp [MemWrite.touches_header, MemWrite.covers]

theorem MemWrite.touches_body_write_index (slot old new : Nat) :
    (MemWrite.write_index old new).touches_body slot = false := by
  simp [MemWrite.touches_body, MemWrite.covers]

theorem MemWrite.touches_body_doorbell (slot val : Nat) :
    (MemWrite.doorbell val).touches_body slot = false := by
  simp [MemWrite.touches_body, MemWrite.covers]

/-- C5: in the stores made by `setup_dispatch_packet` (the list `W1`) followed by
`dispatch_kernel` (the list `B` followed by the header store `hdr` and the doorbell
store `db`), for every session and parameter set: no store of `setup_dispatch_packet`
and no store of `B` touches the header word of the reserved packet; the header word is
written exactly once, by the release store `hdr` of `dispatch_kernel`; every byte of the
body is written during `setup_dispatch_packet`; the `group_segment_size` store is in
`B`; every store that touches the body comes before `hdr`; the doorbell store is the one
store after `hdr`; and a prefix of the sequence that contains `hdr` contains every body
store. -/
theorem C5_header_store_follows_body_stores (self : HsaRunner) (params : KernelParams) :
    ∃ W1 B : List MemWrite, ∃ hdr db : MemWrite,
      (HsaRunner.setup_dispatch_packet self params).2.writes = self.writes ++ W1 ∧
      (HsaRunner.dispatch_kernel (HsaRunner.setup_dispatch_packet self params).2).2.writes =
        (HsaRunner.setup_dispatch_packet self params).2.writes ++ (B ++ [hdr, db]) ∧
      hdr = MemWrite.packet (HsaRunner.setup_dispatch_packet self params).2._dispatch_packet
        0 4 true ∧
      db = MemWrite.doorbell (HsaRunner.setup_dispatch_packet self params).2._dispatch_packet_index ∧
      (∀ w ∈ W1 ++ B,
        w.touches_header (HsaRunner.setup_dispatch_packet self params).2._dispatch_packet
          = false) ∧
      hdr.touches_header (HsaRunner.setup_dispatch_packet self params).2._dispatch_packet
        = true ∧
      hdr.touches_body (HsaRunner.setup_dispatch_packet self params).2._dispatch_packet
        = false ∧
      (W1 ++ B ++ [hdr, db]).countP
        (fun w => w.touches_header
          (HsaRunner.setup_dispatch_packet self params).2._dispatch_packet) = 1 ∧
      (∀ a, 4 ≤ a ∧ a < 64 → ∃ w ∈ W1,
        w.covers (HsaRunner.setup_dispatch_packet self params).2._dispatch_packet a = true) ∧
      MemWrite.packet (HsaRunner.setup_dispatch_packet self params).2._dispatch_packet
        off_group_segment_size 4 false ∈ B ∧
      (∀ w ∈ W1 ++ B ++ [hdr, db],
        w.touches_body (HsaRunner.setup_dispatch_packet self params).2._dispatch_packet = true →
          w ∈ W1 ++ B) ∧
      (∀ n w, hdr ∈ (W1 ++ B ++ [hdr, db]).take n → w ∈ W1 ++ B ++ [hdr, db] →
        w.touches_body (HsaRunner.setup_dispatch_packet self params).2._dispatch_packet = true →
          w ∈ (W1 ++ B ++ [hdr, db]).take n) := by
  have hslot := HsaRunner.slot_after_setup self params
  have hidx := HsaRunner.index_after_setup self params
  have hW1 := HsaRunner.writes_after_setup self params
  have hW2 := HsaRunner.writes_after_dispatch_kernel
    (HsaRunner.setup_dispatch_packet self params).2
  generalize (HsaRunner.setup_dispatch_packet self params).2 = s1 at hslot hidx hW1 hW2 ⊢
  generalize HsaRunner.packet_slot self self._queue.write_index = slot at hslot hW1
  rw [hslot] at hW2 ⊢
  have hnohdr : ∀ w ∈
      [MemWrite.write_index self._queue.write_index ((self._queue.write_index + 1) % 2 ^ 64),
        MemWrite.packet slot 4 (sizeof_packet - 4) false,
        MemWrite.packet slot off_completion_signal 8 false,
        MemWrite.packet slot off_workgroup_size_x 2 false,
        MemWrite.packet slot off_workgroup_size_y 2 false,
        MemWrite.packet slot off_workgroup_size_z 2 false,
        MemWrite.packet slot off_grid_size_x 4 false,
        MemWrite.packet slot off_grid_size_y 4 false,
        MemWrite.packet slot off_grid_size_z 4 false,
        MemWrite.packet slot off_group_segment_size 4 false,
        MemWrite.packet slot off_private_segment_size 4 false,
        MemWrite.packet slot off_kernel_object 8 false,
        MemWrite.packet slot off_kernarg_address 8 false] ++
      [MemWrite.packet slot off_group_segment_size 4 false],
      w.touches_header slot = false := by
    simp [MemWrite.touches_header_packet, MemWrite.touches_header_write_index, sizeof_packet,
      off_completion_signal, off_workgroup_size_x, off_workgroup_size_y, off_workgroup_size_z,
      off_grid_size_x, off_grid_size_y, off_grid_size_z, off_group_segment_size,
      off_private_segment_size, off_kernel_object, off_kernarg_address]
  have hhdr : (MemWrite.packet slot 0 4 true).touches_header slot = true := by
    simp [MemWrite.touches_header_packet]
  refine ⟨_, _, _, _, hW1, hW2, rfl, rfl, hnohdr, hhdr, ?_, ?_, ?_, ?_, ?_, ?_⟩
  · simp [MemWrite.touches_body_packet]
  · rw [List.countP_append,
      List.countP_eq_zero.2 (fun w hw => by rw [hnohdr w hw]; exact Bool.false_ne_true)]
    simp [List.countP_cons, hhdr, MemWrite.touches_header_doorbell]
  · rintro a ⟨h1, h2⟩
    refine ⟨MemWrite.packet slot 4 (sizeof_packet - 4) false, by simp, ?_⟩
    simp [MemWrite.covers, sizeof_packet, h1]
    omega
  · simp
  · intro w hw hb
    rcases List.mem_append.1 hw with h | h
    · exact h
    · simp only [List.mem_cons, List.mem_singleton, List.not_mem_nil, or_false] at h
      rcases h with rfl | rfl
      · simp [MemWrite.touches_body_packet] at hb
      · simp [MemWrite.touches_body_doorbell] at hb
  · intro n w hn hw hb
    have hnot : MemWrite.packet slot 0 4 true ∉ _ ++ _ := fun hmem => by
      have := hnohdr _ hmem
      rw [hhdr] at this
      exact Bool.noConfusion this
    rcases List.mem_append.1 hw with h | h
    · exact mem_take_of_mem_take_last _ _ _ hnot n hn w h
    · simp only [List.mem_cons, List.mem_singleton, List.not_mem_nil, or_false] at h
      rcases h with rfl | rfl
      · exact hn
      · simp [MemWrite.touches_body_doorbell] at hb

/-! ## Content of the packet after `setup_dispatch_packet` -/

theorem store_le_congr_apply (m m2 : Bytes) (off width val a : Nat) (h : m a = m2 a) :
    store_le m off width val a = store_le m2 off width val a := by
  unfold store_le
  rw [h]

theorem load_le_memset_zero_inside (m : Bytes) (off len o n : Nat)
    (h : off ≤ o ∧ o + n ≤ off + len) : load_le (memset m off 0 len) o n = 0 := by
  apply load_le_zero
  intro a h1 h2
  rw [memset_apply_of_mem m off 0 len a (by omega)]

namespace HsaRunner

/-- Replacing the ring content changes neither the slot selected nor the values
stored; only the previous content of the slot differs. -/
theorem packet_after_setup_with_ring (self : HsaRunner) (ring : Nat → Bytes)
    (params : KernelParams) :
    (setup_dispatch_packet (self.with_ring ring) params).2.packet =
      store_le (store_le (store_le (store_le (store_le (store_le (store_le (store_le
        (store_le (store_le (store_le
          (memset (ring (self.packet_slot self._queue.write_index)) 4 0 (sizeof_packet - 4))
          off_completion_signal 8 self._signal)
          off_workgroup_size_x 2 params.workgroup_size_x)
          off_workgroup_size_y 2 params.workgroup_size_y)
          off_workgroup_size_z 2 params.workgroup_size_z)
          off_grid_size_x 4 params.grid_x)
          off_grid_size_y 4 params.grid_y)
          off_grid_size_z 4 params.grid_z)
          off_group_segment_size 4 0)
          off_private_segment_size 4 0)
          off_kernel_object 8 self._code_object_handle)
          off_kernarg_address 8 params.kernarg_ptr :=
  packet_after_setup (self.with_ring ring) params

/-- The body bytes after `setup_dispatch_packet` are the same for any two previous
contents of the ring. -/
theorem body_after_setup_independent (self : HsaRunner) (ring : Nat → Bytes)
    (params : KernelParams) (a : Nat) (h : 4 ≤ a ∧ a < 64) :
    (setup_dispatch_packet (self.with_ring ring) params).2.packet a =
      (setup_dispatch_packet self params).2.packet a := by
  rw [packet_after_setup_with_ring, packet_after_setup]
  repeat apply store_le_congr_apply
  rw [memset_apply_of_mem _ _ _ _ _ (by simp only [sizeof_packet]; omega),
    memset_apply_of_mem _ _ _ _ _ (by simp only [sizeof_packet]; omega)]

/-- The first four bytes of the slot are left as they were. -/
theorem header_bytes_after_setup (self : HsaRunner) (params : KernelParams) (a : Nat)
    (h : a < 4) :
    (setup_dispatch_packet self params).2.packet a =
      self._queue.base_address (self.packet_slot self._queue.write_index) a := by
  rw [packet_after_setup]
  repeat rw [store_le_apply_of_not_mem _ _ _ _ _ (Or.inl (Nat.lt_of_lt_of_le h (by decide)))]
  rw [memset_apply_of_not_mem _ _ _ _ _ (Or.inl h)]

end HsaRunner

/-- The workgroup sizes read back after `setup_dispatch_packet` are the supplied
values reduced to the 16 bits of the packet members. -/
theorem workgroup_sizes_after_setup (self : HsaRunner) (params : KernelParams) :
    (HsaRunner.setup_dispatch_packet self params).2.packet_load off_workgroup_size_x 2 =
      params.workgroup_size_x % 2 ^ 16 ∧
    (HsaRunner.setup_dispatch_packet self params).2.packet_load off_workgroup_size_y 2 =
      params.workgroup_size_y % 2 ^ 16 ∧
    (HsaRunner.setup_dispatch_packet self params).2.packet_load off_workgroup_size_z 2 =
      params.workgroup_size_z % 2 ^ 16 := by
  have e16 : (256 : Nat) ^ 2 = 2 ^ 16 := by norm_num
  refine ⟨?_, ?_, ?_⟩
  all_goals
    unfold HsaRunner.packet_load
    rw [HsaRunner.packet_after_setup]
    repeat rw [load_le_store_le_other _ _ _ _ _ _ (by decide)]
    rw [load_le_store_le_same, e16]

/-- C6 (as amended): for every previous content of the reserved slot (and of the whole
ring), after `setup_dispatch_packet` the workgroup sizes of the packet body read back as
the supplied workgroup sizes reduced modulo `2^16` (the members are 16 bits wide), hence
as the supplied values when these are below `2^16`; the grid sizes and the kernarg
address read back as supplied, the kernel object and completion signal as held by the
session; `private_segment_size`, `group_segment_size` and the two reserved members are
zero; the first four bytes keep their previous value; and every byte of the body is the
same whatever the ring held before. The supplied values are in the range of their types
(32-bit `unsigned` dimensions, 64-bit pointer and handles). -/
theorem C6_setup_body_independent_of_old_slot (self : HsaRunner) (params : KernelParams)
    (hp : params.in_range) (hs : self.handles_in_range) :
    (HsaRunner.setup_dispatch_packet self params).2.packet_load off_workgroup_size_x 2 =
      params.workgroup_size_x % 2 ^ 16 ∧
    (HsaRunner.setup_dispatch_packet self params).2.packet_load off_workgroup_size_y 2 =
      params.workgroup_size_y % 2 ^ 16 ∧
    (HsaRunner.setup_dispatch_packet self params).2.packet_load off_workgroup_size_z 2 =
      params.workgroup_size_z % 2 ^ 16 ∧
    (params.workgroup_size_x < 2 ^ 16 →
      (HsaRunner.setup_dispatch_packet self params).2.packet_load off_workgroup_size_x 2 =
        params.workgroup_size_x) ∧
    (params.workgroup_size_y < 2 ^ 16 →
      (HsaRunner.setup_dispatch_packet self params).2.packet_load off_workgroup_size_y 2 =
        params.workgroup_size_y) ∧
    (params.workgroup_size_z < 2 ^ 16 →
      (HsaRunner.setup_dispatch_packet self params).2.packet_load off_workgroup_size_z 2 =
        params.workgroup_size_z) ∧
    (HsaRunner.setup_dispatch_packet self params).2.packet_load off_grid_size_x 4 =
      params.grid_x ∧
    (HsaRunner.setup_dispatch_packet self params).2.packet_load off_grid_size_y 4 =
      params.grid_y ∧
    (HsaRunner.setup_dispatch_packet self params).2.packet_load off_grid_size_z 4 =
      params.grid_z ∧
    (HsaRunner.setup_dispatch_packet self params).2.packet_load off_kernel_object 8 =
      self._code_object_handle ∧
    (HsaRunner.setup_dispatch_packet self params).2.packet_load off_kernarg_address 8 =
      params.kernarg_ptr ∧
    (HsaRunner.setup_dispatch_packet self params).2.packet_load off_completion_signal 8 =
      self._signal ∧
    (HsaRunner.setup_dispatch_packet self params).2.packet_load off_private_segment_size 4 = 0 ∧
    (HsaRunner.setup_dispatch_packet self params).2.packet_load off_group_segment_size 4 = 0 ∧
    (HsaRunner.setup_dispatch_packet self params).2.packet_load off_reserved0 2 = 0 ∧
    (HsaRunner.setup_dispatch_packet self params).2.packet_load off_reserved2 8 = 0 ∧
    (∀ a, a < 4 →
      (HsaRunner.setup_dispatch_packet self params).2.packet a =
        self._queue.base_address (self.packet_slot self._queue.write_index) a) ∧
    (∀ (ring : Nat → Bytes) (a : Nat), 4 ≤ a ∧ a < 64 →
      (HsaRunner.setup_dispatch_packet (self.with_ring ring) params).2.packet a =
        (HsaRunner.setup_dispatch_packet self params).2.packet a) := by
  obtain ⟨_, _, _, hgx, hgy, hgz, hka⟩ := hp
  obtain ⟨hsig, hko⟩ := hs
  obtain ⟨hx, hy, hz⟩ := workgroup_sizes_after_setup self params
  have e32 : (256 : Nat) ^ 4 = 2 ^ 32 := by norm_num
  have e64 : (256 : Nat) ^ 8 = 2 ^ 64 := by norm_num
  refine ⟨hx, hy, hz, fun h => by rw [hx, Nat.mod_eq_of_lt h],
    fun h => by rw [hy, Nat.mod_eq_of_lt h], fun h => by rw [hz, Nat.mod_eq_of_lt h],
    ?_, ?_, ?_, ?_, ?_, ?_, ?_,
    HsaRunner.group_segment_size_after_setup self params, ?_, ?_,
    HsaRunner.header_bytes_after_setup self params,
    fun ring => HsaRunner.body_after_setup_independent self ring params⟩
  all_goals
    unfold HsaRunner.packet_load
    rw [HsaRunner.packet_after_setup]
    repeat rw [load_le_store_le_other _ _ _ _ _ _ (by decide)]
  · rw [load_le_store_le_same, e32, Nat.mod_eq_of_lt hgx]
  · rw [load_le_store_le_same, e32, Nat.mod_eq_of_lt hgy]
  · rw [load_le_store_le_same, e32, Nat.mod_eq_of_lt hgz]
  · rw [load_le_store_le_same, e64, Nat.mod_eq_of_lt hko]
  · rw [load_le_store_le_same, e64, Nat.mod_eq_of_lt hka]
  · rw [load_le_store_le_same, e64, Nat.mod_eq_of_lt hsig]
  · rw [load_le_store_le_same]
    rfl
  · exact load_le_memset_zero_inside _ _ _ _ _ (by decide)
  · exact load_le_memset_zero_inside _ _ _ _ _ (by decide)

/-- C6 at the session `sample` (stale bytes 255 in the ring) and workgroup (64,1,1),
grid (1024,1,1): the workgroup size reads back as 64, the grid size as 1024 and the
reserved member as 0. -/
theorem C6_setup_body_independent_of_old_slot_witness :
    KernelParams.sample.in_range ∧ HsaRunner.sample.handles_in_range ∧
    (HsaRunner.setup_dispatch_packet HsaRunner.sample KernelParams.sample).2.packet_load
      off_workgroup_size_x 2 = KernelParams.sample.workgroup_size_x ∧
    (HsaRunner.setup_dispatch_packet HsaRunner.sample KernelParams.sample).2.packet_load
      off_grid_size_x 4 = KernelParams.sample.grid_x ∧
    (HsaRunner.setup_dispatch_packet HsaRunner.sample KernelParams.sample).2.packet_load
      off_reserved2 8 = 0 :=
  have hp : KernelParams.sample.in_range := by
    unfold KernelParams.in_range; decide
  have hs : HsaRunner.sample.handles_in_range := by
    unfold HsaRunner.handles_in_range; decide
  ⟨hp, hs,
   (C6_setup_body_independent_of_old_slot HsaRunner.sample KernelParams.sample hp
     hs).2.2.2.1 (by decide),
   (C6_setup_body_independent_of_old_slot HsaRunner.sample KernelParams.sample hp
     hs).2.2.2.2.2.2.1,
   (C6_setup_body_independent_of_old_slot HsaRunner.sample KernelParams.sample hp
     hs).2.2.2.2.2.2.2.2.2.2.2.2.2.2.2.1⟩

/-- C6 counterexample: a workgroup size of 65600 on the x axis, a value of type
`unsigned`, reads back from the packet as 64 after `setup_dispatch_packet`, not as the
supplied value. -/
theorem C6_workgroup_size_reads_back_truncated :
    KernelParams.sample_wide_workgroup.in_range ∧ HsaRunner.sample.handles_in_range ∧
    KernelParams.sample_wide_workgroup.workgroup_size_x = 65600 ∧
    (HsaRunner.setup_dispatch_packet HsaRunner.sample
      KernelParams.sample_wide_workgroup).2.packet_load off_workgroup_size_x 2 = 64 ∧
    (HsaRunner.setup_dispatch_packet HsaRunner.sample
      KernelParams.sample_wide_workgroup).2.packet_load off_workgroup_size_x 2 ≠
      KernelParams.sample_wide_workgroup.workgroup_size_x := by
  rw [(workgroup_sizes_after_setup HsaRunner.sample KernelParams.sample_wide_workgroup).1]
  unfold KernelParams.in_range HsaRunner.handles_in_range
  decide

/-! ## `init`: result, calls made, resources held -/

namespace HsaRunner

/-- The result of `init`, the calls it makes and the resources it holds on return, by
the first step that fails. -/
theorem init_by_cases (self : HsaRunner) (o : RuntimeOutcomes) :
    ((init self o).1 = true ↔
      (o.hsa_init = HSA_STATUS_SUCCESS ∧ o.hsa_iterate_agents = HSA_STATUS_SUCCESS ∧
       o.found_agent.getD self._agent ≠ 0 ∧ o.agent_info_name = HSA_STATUS_SUCCESS ∧
       o.agent_info_queue_max_size = HSA_STATUS_SUCCESS ∧
       o.hsa_queue_create = HSA_STATUS_SUCCESS ∧ o.hsa_signal_create = HSA_STATUS_SUCCESS ∧
       o.setup_memory_regions = true)) ∧
    (init self o).2.calls =
      self.calls ++ (init_calls (o.found_agent.getD self._agent) o.queue_max_size).take
        (steps_before_failure (init_steps self._agent o) + 1) ∧
    (init self o).2.live =
      (if 6 ≤ steps_before_failure (init_steps self._agent o) then [Resource.signal] else []) ++
      (if 5 ≤ steps_before_failure (init_steps self._agent o) then [Resource.queue] else []) ++
      (if 1 ≤ steps_before_failure (init_steps self._agent o) then [Resource.runtime] else []) ++
      self.live := by
  by_cases h1 : o.hsa_init = HSA_STATUS_SUCCESS
  swap
  · simp [init, runtime_call, hsa_error, init_steps, init_calls, steps_before_failure, h1]
  by_cases h2 : o.hsa_iterate_agents = HSA_STATUS_SUCCESS
  swap
  · simp [init, runtime_call, hsa_error, init_steps, init_calls, steps_before_failure, h1, h2]
  by_cases h2a : o.found_agent.getD self._agent = 0
  · simp [init, runtime_call, hsa_error, init_steps, init_calls, steps_before_failure, h1, h2,
      h2a]
  by_cases h3 : o.agent_info_name = HSA_STATUS_SUCCESS
  swap
  · simp [init, runtime_call, hsa_error, init_steps, init_calls, steps_before_failure, h1, h2,
      h2a, h3]
  by_cases h4 : o.agent_info_queue_max_size = HSA_STATUS_SUCCESS
  swap
  · simp [init, runtime_call, hsa_error, init_steps, init_calls, steps_before_failure, h1, h2,
      h2a, h3, h4]
  by_cases h5 : o.hsa_queue_create = HSA_STATUS_SUCCESS
  swap
  · simp [init, runtime_call, hsa_error, init_steps, init_calls, steps_before_failure, h1, h2,
      h2a, h3, h4, h5]
  by_cases h6 : o.hsa_signal_create = HSA_STATUS_SUCCESS
  swap
  · simp [init, runtime_call, hsa_error, init_steps, init_calls, steps_before_failure, h1, h2,
      h2a, h3, h4, h5, h6]
  by_cases h7 : o.setup_memory_regions = true
  swap
  · simp [init, runtime_call, hsa_error, init_steps, init_calls, steps_before_failure, h1, h2,
      h2a, h3, h4, h5, h6, h7]
  · simp [init, runtime_call, hsa_error, init_steps, init_calls, steps_before_failure, h1, h2,
      h2a, h3, h4, h5, h6, h7]

end HsaRunner

/-- No call of a complete run of `init` releases a resource. -/
theorem init_calls_no_release (agent queue_size : Nat) :
    ∀ c ∈ init_calls agent queue_size, c.is_release = false := by
  simp [init_calls, RuntimeCall.is_release]

/-- C9 (as amended): a failed `init` releases nothing. When `init` returns failure, it
has made no call that destroys the signal or the queue or shuts the runtime down, every
resource held on entry is still held, and every resource acquired by a step that
succeeded before the failing one is still held on return: the runtime when `hsa_init`
succeeded, the queue when the steps up to `hsa_queue_create` succeeded, the signal when
the steps up to `hsa_signal_create` succeeded. -/
theorem C9_failed_init_releases_nothing (self : HsaRunner) (o : RuntimeOutcomes)
    (hfail : (HsaRunner.init self o).1 = false) :
    (∀ c ∈ (HsaRunner.init self o).2.calls, c.is_release = true → c ∈ self.calls) ∧
    (∀ x ∈ self.live, x ∈ (HsaRunner.init self o).2.live) ∧
    (o.hsa_init = HSA_STATUS_SUCCESS → Resource.runtime ∈ (HsaRunner.init self o).2.live) ∧
    (o.hsa_init = HSA_STATUS_SUCCESS ∧ o.hsa_iterate_agents = HSA_STATUS_SUCCESS ∧
      o.found_agent.getD self._agent ≠ 0 ∧ o.agent_info_name = HSA_STATUS_SUCCESS ∧
      o.agent_info_queue_max_size = HSA_STATUS_SUCCESS ∧
      o.hsa_queue_create = HSA_STATUS_SUCCESS →
        Resource.queue ∈ (HsaRunner.init self o).2.live) ∧
    (o.hsa_init = HSA_STATUS_SUCCESS ∧ o.hsa_iterate_agents = HSA_STATUS_SUCCESS ∧
      o.found_agent.getD self._agent ≠ 0 ∧ o.agent_info_name = HSA_STATUS_SUCCESS ∧
      o.agent_info_queue_max_size = HSA_STATUS_SUCCESS ∧
      o.hsa_queue_create = HSA_STATUS_SUCCESS ∧ o.hsa_signal_create = HSA_STATUS_SUCCESS →
        Resource.signal ∈ (HsaRunner.init self o).2.live) := by
  obtain ⟨_, hcalls, hlive⟩ := HsaRunner.init_by_cases self o
  have _ := hfail
  refine ⟨?_, ?_, ?_, ?_, ?_⟩
  · intro c hc hrel
    rw [hcalls] at hc
    rcases List.mem_append.1 hc with h | h
    · exact h
    · have := init_calls_no_release _ _ c (List.mem_of_mem_take h)
      rw [hrel] at this
      exact Bool.noConfusion this
  · intro x hx
    rw [hlive]
    exact List.mem_append_right _ hx
  · intro h1
    rw [hlive]
    simp [init_steps, steps_before_failure, h1, List.takeWhile_cons]
  · rintro ⟨h1, h2, h2a, h3, h4, h5⟩
    rw [hlive]
    simp [init_steps, steps_before_failure, h1, h2, h2a, h3, h4, h5, List.takeWhile_cons]
  · rintro ⟨h1, h2, h2a, h3, h4, h5, h6⟩
    rw [hlive]
    simp [init_steps, steps_before_failure, h1, h2, h2a, h3, h4, h5, h6, List.takeWhile_cons]

/-- C9 at a run where signal creation fails: `init` fails and the runtime and the
queue it acquired are still held. -/
theorem C9_failed_init_releases_nothing_witness :
    (HsaRunner.init HsaRunner.fresh RuntimeOutcomes.signal_fails).1 = false ∧
    Resource.runtime ∈ (HsaRunner.init HsaRunner.fresh RuntimeOutcomes.signal_fails).2.live ∧
    Resource.queue ∈ (HsaRunner.init HsaRunner.fresh RuntimeOutcomes.signal_fails).2.live :=
  ⟨by decide,
   (C9_failed_init_releases_nothing HsaRunner.fresh RuntimeOutcomes.signal_fails
     (by decide)).2.2.1 (by decide),
   (C9_failed_init_releases_nothing HsaRunner.fresh RuntimeOutcomes.signal_fails
     (by decide)).2.2.2.1 (by decide)⟩

/-- C9 counterexample: when `hsa_signal_create` fails after `hsa_init` and
`hsa_queue_create` succeeded, `init` returns failure while the runtime and the queue
are still held, although nothing was held on entry. -/
theorem C9_failed_init_leaves_runtime_and_queue_live :
    HsaRunner.fresh.live = [] ∧
    (HsaRunner.init HsaRunner.fresh RuntimeOutcomes.signal_fails).1 = false ∧
    (HsaRunner.init HsaRunner.fresh RuntimeOutcomes.signal_fails).2.live =
      [Resource.queue, Resource.runtime] ∧
    (HsaRunner.init HsaRunner.fresh RuntimeOutcomes.signal_fails).2.calls =
      [RuntimeCall.hsa_init, RuntimeCall.hsa_iterate_agents,
       RuntimeCall.hsa_agent_get_info 7 HSA_AGENT_INFO_NAME,
       RuntimeCall.hsa_agent_get_info 7 HSA_AGENT_INFO_QUEUE_MAX_SIZE,
       RuntimeCall.hsa_queue_create 7 128 HSA_QUEUE_TYPE_MULTI UINT32_MAX UINT32_MAX,
       RuntimeCall.hsa_signal_create 1 0] := by
  decide

/-- C10: `init` reports success exactly when runtime initialisation, agent iteration
with a non-zero agent handle selected, both agent-info queries, queue creation, signal
creation and memory-region setup all succeed. The calls it makes are the calls of a
complete run up to and including the first step that fails, so no call follows a
failure. On success the calls are the complete run: the queue is created for the
selected device with the queue size the device reported and the multi-producer type,
and the signal with initial value 1. -/
theorem C10_init_succeeds_iff_every_step_succeeds (self : HsaRunner) (o : RuntimeOutcomes) :
    ((HsaRunner.init self o).1 = true ↔
      (o.hsa_init = HSA_STATUS_SUCCESS ∧ o.hsa_iterate_agents = HSA_STATUS_SUCCESS ∧
       o.found_agent.getD self._agent ≠ 0 ∧ o.agent_info_name = HSA_STATUS_SUCCESS ∧
       o.agent_info_queue_max_size = HSA_STATUS_SUCCESS ∧
       o.hsa_queue_create = HSA_STATUS_SUCCESS ∧ o.hsa_signal_create = HSA_STATUS_SUCCESS ∧
       o.setup_memory_regions = true)) ∧
    ((HsaRunner.init self o).1 = true ↔ ∀ b ∈ init_steps self._agent o, b = true) ∧
    (HsaRunner.init self o).2.calls =
      self.calls ++ (init_calls (o.found_agent.getD self._agent) o.queue_max_size).take
        (steps_before_failure (init_steps self._agent o) + 1) ∧
    ((HsaRunner.init self o).1 = true →
      (HsaRunner.init self o).2.calls =
        self.calls ++ init_calls (o.found_agent.getD self._agent) o.queue_max_size ∧
      RuntimeCall.hsa_queue_create (o.found_agent.getD self._agent) o.queue_max_size
        HSA_QUEUE_TYPE_MULTI UINT32_MAX UINT32_MAX ∈ (HsaRunner.init self o).2.calls ∧
      RuntimeCall.hsa_signal_create 1 0 ∈ (HsaRunner.init self o).2.calls) := by
  obtain ⟨hres, hcalls, _⟩ := HsaRunner.init_by_cases self o
  have hall : (HsaRunner.init self o).1 = true →
      (HsaRunner.init self o).2.calls =
        self.calls ++ init_calls (o.found_agent.getD self._agent) o.queue_max_size := by
    intro hs
    obtain ⟨h1, h2, h2a, h3, h4, h5, h6, h7⟩ := hres.1 hs
    rw [hcalls]
    simp [init_steps, steps_before_failure, init_calls, h1, h2, h2a, h3, h4, h5, h6, h7,
      List.takeWhile_cons]
  refine ⟨hres, ?_, hcalls, fun hs => ⟨hall hs, ?_, ?_⟩⟩
  · rw [hres]
    simp [init_steps, and_assoc]
  · rw [hall hs]
    simp [init_calls]
  · rw [hall hs]
    simp [init_calls]

/-! ## `setup_executable`: result, calls made, states of the executable -/

namespace HsaRunner

/-- The result of `setup_executable`, the calls it makes, the states the executable
goes through and the members it updates, by the first step that fails. -/
theorem setup_executable_by_cases (self : HsaRunner) (code_object_path symbol_name : String)
    (o : ExecutableOutcomes) :
    ((setup_executable self code_object_path symbol_name o).1 = true ↔
      (o.load_code_object = true ∧ o.hsa_executable_create = HSA_STATUS_SUCCESS ∧
       o.hsa_executable_load_code_object = HSA_STATUS_SUCCESS ∧
       o.hsa_executable_freeze = HSA_STATUS_SUCCESS ∧
       o.hsa_executable_get_symbol = HSA_STATUS_SUCCESS ∧
       o.symbol_info_kernel_object = HSA_STATUS_SUCCESS ∧
       o.symbol_info_group_segment_size = HSA_STATUS_SUCCESS)) ∧
    (setup_executable self code_object_path symbol_name o).2.calls =
      self.calls ++
        (setup_executable_calls code_object_path symbol_name self._agent o.code_object
          o.symbol).take (steps_before_failure (setup_executable_steps o) + 1) ∧
    (setup_executable self code_object_path symbol_name o).2.executable_states =
      (if 2 ≤ steps_before_failure (setup_executable_steps o) then
        [ExecutableState.unfrozen, ExecutableState.loaded, ExecutableState.frozen].take
          (steps_before_failure (setup_executable_steps o) - 1)
       else self.executable_states) ∧
    (setup_executable self code_object_path symbol_name o).2._executable =
      (if 4 ≤ steps_before_failure (setup_executable_steps o) then ExecutableState.frozen
       else if 3 ≤ steps_before_failure (setup_executable_steps o) then ExecutableState.loaded
       else if 2 ≤ steps_before_failure (setup_executable_steps o) then
         ExecutableState.unfrozen
       else self._executable) ∧
    (setup_executable self code_object_path symbol_name o).2._code_object_handle =
      (if 6 ≤ steps_before_failure (setup_executable_steps o) then o.kernel_object
       else self._code_object_handle) ∧
    (setup_executable self code_object_path symbol_name o).2._group_static_size =
      (if 7 ≤ steps_before_failure (setup_executable_steps o) then o.group_segment_size
       else self._group_static_size) := by
  by_cases h1 : o.load_code_object = true
  swap
  · simp [setup_executable, runtime_call, hsa_error, setup_executable_steps,
      setup_executable_calls, steps_before_failure, h1]
  by_cases h2 : o.hsa_executable_create = HSA_STATUS_SUCCESS
  swap
  · simp [setup_executable, runtime_call, hsa_error, setup_executable_steps,
      setup_executable_calls, steps_before_failure, h1, h2]
  by_cases h3 : o.hsa_executable_load_code_object = HSA_STATUS_SUCCESS
  swap
  · simp [setup_executable, runtime_call, hsa_error, setup_executable_steps,
      setup_executable_calls, steps_before_failure, executable_created, executable_moved,
      created_executable_state, h1, h2, h3]
  by_cases h4 : o.hsa_executable_freeze = HSA_STATUS_SUCCESS
  swap
  · simp [setup_executable, runtime_call, hsa_error, setup_executable_steps,
      setup_executable_calls, steps_before_failure, executable_created, executable_moved,
      created_executable_state, h1, h2, h3, h4]
  by_cases h5 : o.hsa_executable_get_symbol = HSA_STATUS_SUCCESS
  swap
  · simp [setup_executable, runtime_call, hsa_error, setup_executable_steps,
      setup_executable_calls, steps_before_failure, executable_created, executable_moved,
      created_executable_state, h1, h2, h3, h4, h5]
  by_cases h6 : o.symbol_info_kernel_object = HSA_STATUS_SUCCESS
  swap
  · simp [setup_executable, runtime_call, hsa_error, setup_executable_steps,
      setup_executable_calls, steps_before_failure, executable_created, executable_moved,
      created_executable_state, h1, h2, h3, h4, h5, h6]
  by_cases h7 : o.symbol_info_group_segment_size = HSA_STATUS_SUCCESS
  swap
  · simp [setup_executable, runtime_call, hsa_error, setup_executable_steps,
      setup_executable_calls, steps_before_failure, executable_created, executable_moved,
      created_executable_state, h1, h2, h3, h4, h5, h6, h7]
  · simp [setup_executable, runtime_call, hsa_error, setup_executable_steps,
      setup_executable_calls, steps_before_failure, executable_created, executable_moved,
      created_executable_state, h1, h2, h3, h4, h5, h6, h7]

end HsaRunner

/-- The first four steps succeed exactly when at least four steps precede the first
failure. -/
theorem frozen_ok_iff_four_steps (o : ExecutableOutcomes) :
    o.frozen_ok ↔ 4 ≤ steps_before_failure (setup_executable_steps o) := by
  unfold ExecutableOutcomes.frozen_ok
  by_cases h1 : o.load_code_object = true <;>
  by_cases h2 : o.hsa_executable_create = HSA_STATUS_SUCCESS <;>
  by_cases h3 : o.hsa_executable_load_code_object = HSA_STATUS_SUCCESS <;>
  by_cases h4 : o.hsa_executable_freeze = HSA_STATUS_SUCCESS <;>
  simp [setup_executable_steps, steps_before_failure, List.takeWhile_cons, h1, h2, h3, h4]

/-- The executable is created exactly when at least two steps precede the first
failure. -/
theorem created_iff_two_steps (o : ExecutableOutcomes) :
    (o.load_code_object = true ∧ o.hsa_executable_create = HSA_STATUS_SUCCESS) ↔
      2 ≤ steps_before_failure (setup_executable_steps o) := by
  by_cases h1 : o.load_code_object = true <;>
  by_cases h2 : o.hsa_executable_create = HSA_STATUS_SUCCESS <;>
  simp [setup_executable_steps, steps_before_failure, List.takeWhile_cons, h1, h2]

theorem steps_before_failure_le (steps : List Bool) :
    steps_before_failure steps ≤ steps.length := by
  unfold steps_before_failure
  exact (List.takeWhile_sublist _).length_le

/-- The first four calls of a complete run resolve no symbol; the last three do. -/
theorem setup_executable_calls_split (code_object_path symbol_name : String)
    (agent code_object symbol : Nat) :
    (∀ c ∈ (setup_executable_calls code_object_path symbol_name agent code_object symbol).take 4,
      c.is_symbol_resolution = false) ∧
    (∀ c ∈ (setup_executable_calls code_object_path symbol_name agent code_object symbol).drop 4,
      c.is_symbol_resolution = true) ∧
    (∀ e nm a, RuntimeCall.hsa_executable_get_symbol e nm a ∈
      (setup_executable_calls code_object_path symbol_name agent code_object symbol).drop 4 →
        e = ExecutableState.frozen) ∧
    ((setup_executable_calls code_object_path symbol_name agent code_object symbol).take
      4).getLast? = some (RuntimeCall.hsa_executable_freeze ExecutableState.loaded) := by
  simp [setup_executable_calls, RuntimeCall.is_symbol_resolution]
  intro e _ _ he _ _
  exact he

/-- C11: in every run of `setup_executable` the calls made are those of a complete run
cut after the first step that fails; they split into the calls `pre` that resolve no
symbol, followed by the symbol lookup and the symbol-info queries `post`. When a symbol
call is made, `pre` is the four calls reading the code object, creating, loading and
freezing the executable, the freeze call is the last of them and returned success, and
the lookup is made on a frozen executable. When reading the code object, creating the
executable, loading the code object or freezing fails, `setup_executable` returns
failure, makes no symbol call and leaves the kernel object handle and the static
group-segment size as they were. The executable created in the run goes through a
non-empty prefix of unfrozen, loaded, frozen, never backwards, `_executable` being in
the last state reached; it is frozen once the first four steps succeeded, and when the
executable is not created `_executable` is left as it was. -/
theorem C11_symbols_resolved_only_after_freeze (self : HsaRunner)
    (code_object_path symbol_name : String) (o : ExecutableOutcomes) :
    ∃ pre post : List RuntimeCall,
      (HsaRunner.setup_executable self code_object_path symbol_name o).2.calls =
        self.calls ++ (pre ++ post) ∧
      pre ++ post =
        (setup_executable_calls code_object_path symbol_name self._agent o.code_object
          o.symbol).take (steps_before_failure (setup_executable_steps o) + 1) ∧
      (∀ c ∈ pre, c.is_symbol_resolution = false) ∧
      (∀ c ∈ post, c.is_symbol_resolution = true) ∧
      (post ≠ [] →
        o.frozen_ok ∧
        pre = (setup_executable_calls code_object_path symbol_name self._agent o.code_object
          o.symbol).take 4 ∧
        pre.getLast? = some (RuntimeCall.hsa_executable_freeze ExecutableState.loaded)) ∧
      (∀ e nm a, RuntimeCall.hsa_executable_get_symbol e nm a ∈ post →
        e = ExecutableState.frozen) ∧
      (¬ o.frozen_ok →
        (HsaRunner.setup_executable self code_object_path symbol_name o).1 = false ∧
        post = [] ∧
        (HsaRunner.setup_executable self code_object_path symbol_name o).2._code_object_handle
          = self._code_object_handle ∧
        (HsaRunner.setup_executable self code_object_path symbol_name o).2._group_static_size
          = self._group_static_size) ∧
      (o.load_code_object = true ∧ o.hsa_executable_create = HSA_STATUS_SUCCESS →
        (HsaRunner.setup_executable self code_object_path symbol_name o).2.executable_states
          <+: [ExecutableState.unfrozen, ExecutableState.loaded, ExecutableState.frozen] ∧
        (HsaRunner.setup_executable self code_object_path symbol_name o).2.executable_states
          ≠ [] ∧
        (HsaRunner.setup_executable self code_object_path symbol_name
          o).2.executable_states.Pairwise (fun a b => a.rank < b.rank) ∧
        (HsaRunner.setup_executable self code_object_path symbol_name
          o).2.executable_states.getLast? =
          some (HsaRunner.setup_executable self code_object_path symbol_name o).2._executable) ∧
      (¬ (o.load_code_object = true ∧ o.hsa_executable_create = HSA_STATUS_SUCCESS) →
        (HsaRunner.setup_executable self code_object_path symbol_name o).2.executable_states
          = self.executable_states ∧
        (HsaRunner.setup_executable self code_object_path symbol_name o).2._executable
          = self._executable) ∧
      (o.frozen_ok →
        (HsaRunner.setup_executable self code_object_path symbol_name o).2.executable_states
          = [ExecutableState.unfrozen, ExecutableState.loaded, ExecutableState.frozen] ∧
        (HsaRunner.setup_executable self code_object_path symbol_name o).2._executable
          = ExecutableState.frozen) := by
  obtain ⟨hres, hcalls, hhist, hexe, hko, hgs⟩ :=
    HsaRunner.setup_executable_by_cases self code_object_path symbol_name o
  obtain ⟨hpre, hpost, hfrozen, hlast⟩ :=
    setup_executable_calls_split code_object_path symbol_name self._agent o.code_object o.symbol
  have hfour := frozen_ok_iff_four_steps o
  have htwo := created_iff_two_steps o
  have hle : steps_before_failure (setup_executable_steps o) ≤ 7 :=
    steps_before_failure_le (setup_executable_steps o)
  generalize steps_before_failure (setup_executable_steps o) = n at *
  generalize setup_executable_calls code_object_path symbol_name self._agent o.code_object
    o.symbol = full at *
  generalize HsaRunner.setup_executable self code_object_path symbol_name o = R at *
  have hstates :
      (o.load_code_object = true ∧ o.hsa_executable_create = HSA_STATUS_SUCCESS →
        R.2.executable_states
          <+: [ExecutableState.unfrozen, ExecutableState.loaded, ExecutableState.frozen] ∧
        R.2.executable_states ≠ [] ∧
        R.2.executable_states.Pairwise (fun a b => a.rank < b.rank) ∧
        R.2.executable_states.getLast? = some R.2._executable) ∧
      (¬ (o.load_code_object = true ∧ o.hsa_executable_create = HSA_STATUS_SUCCESS) →
        R.2.executable_states = self.executable_states ∧ R.2._executable = self._executable) ∧
      (o.frozen_ok →
        R.2.executable_states
          = [ExecutableState.unfrozen, ExecutableState.loaded, ExecutableState.frozen] ∧
        R.2._executable = ExecutableState.frozen) := by
    rw [htwo, hfour, hhist, hexe]
    have hn : n ≤ 1 ∨ n = 2 ∨ n = 3 ∨ n = 4 ∨ n = 5 ∨ n = 6 ∨ n = 7 := by omega
    rcases hn with h | h | h | h | h | h | h
    · have h2 : ¬ 2 ≤ n := by omega
      have h3 : ¬ 3 ≤ n := by omega
      have h4 : ¬ 4 ≤ n := by omega
      simp [h2, h3, h4]
    all_goals
      subst h
      simp [ExecutableState.rank]
  by_cases hf : o.frozen_ok
  · have h4 : 4 ≤ n := hfour.1 hf
    refine ⟨full.take 4, (full.take (n + 1)).drop 4, ?_, ?_, hpre, ?_, ?_, ?_, ?_, hstates⟩
    · rw [hcalls]
      congr 1
      have e : full.take 4 = (full.take (n + 1)).take 4 := by
        rw [List.take_take, Nat.min_eq_left (by omega)]
      rw [e, List.take_append_drop]
    · have e : full.take 4 = (full.take (n + 1)).take 4 := by
        rw [List.take_take, Nat.min_eq_left (by omega)]
      rw [e, List.take_append_drop]
    · intro c hc
      rw [List.drop_take] at hc
      exact hpost c (List.mem_of_mem_take hc)
    · intro _
      exact ⟨hf, rfl, hlast⟩
    · intro e nm a hc
      rw [List.drop_take] at hc
      exact hfrozen e nm a (List.mem_of_mem_take hc)
    · intro hnot
      exact absurd hf hnot
  · have h4 : ¬ 4 ≤ n := fun h => hf (hfour.2 h)
    refine ⟨full.take (n + 1), [], ?_, ?_, ?_, ?_, ?_, ?_, ?_, hstates⟩
    · rw [hcalls, List.append_nil]
    · rw [List.append_nil]
    · intro c hc
      have e : full.take (n + 1) = (full.take 4).take (n + 1) := by
        rw [List.take_take, Nat.min_eq_left (by omega)]
      rw [e] at hc
      exact hpre c (List.mem_of_mem_take hc)
    · intro c hc
      exact absurd hc (List.not_mem_nil c)
    · intro h
      exact absurd rfl h
    · intro e nm a hc
      exact absurd hc (List.not_mem_nil _)
    · intro _
      refine ⟨?_, rfl, ?_, ?_⟩
      · cases hR : R.1
        · rfl
        · exact absurd ⟨(hres.1 hR).1, (hres.1 hR).2.1, (hres.1 hR).2.2.1, (hres.1 hR).2.2.2.1⟩ hf
      · rw [hko, if_neg (show ¬ 6 ≤ n by omega)]
      · rw [hgs, if_neg (show ¬ 7 ≤ n by omega)]

/-- A run in which freezing fails: `setup_executable` returns failure after four calls,
none of them a symbol call, with the executable left in state loaded; a run in which
every step succeeds resolves the symbol on the frozen executable. -/
theorem setup_executable_sample_runs :
    (HsaRunner.setup_executable HsaRunner.sample ("add_one.co") ("add_one")
      ExecutableOutcomes.freeze_fails).1 = false ∧
    (HsaRunner.setup_executable HsaRunner.sample ("add_one.co") ("add_one")
      ExecutableOutcomes.freeze_fails).2.calls =
      [RuntimeCall.load_code_object ("add_one.co"),
       RuntimeCall.hsa_executable_create HSA_PROFILE_FULL HSA_EXECUTABLE_STATE_UNFROZEN,
       RuntimeCall.hsa_executable_load_code_object ExecutableState.unfrozen 7 3,
       RuntimeCall.hsa_executable_freeze ExecutableState.loaded] ∧
    (HsaRunner.setup_executable HsaRunner.sample ("add_one.co") ("add_one")
      ExecutableOutcomes.freeze_fails).2.executable_states =
      [ExecutableState.unfrozen, ExecutableState.loaded] ∧
    (HsaRunner.setup_executable HsaRunner.sample ("add_one.co") ("add_one")
      ExecutableOutcomes.all_ok).1 = true ∧
    (HsaRunner.setup_executable HsaRunner.sample ("add_one.co") ("add_one")
      ExecutableOutcomes.all_ok).2.executable_states =
      [ExecutableState.unfrozen, ExecutableState.loaded, ExecutableState.frozen] ∧
    (HsaRunner.setup_executable HsaRunner.sample ("add_one.co") ("add_one")
      ExecutableOutcomes.all_ok).2._group_static_size = 16 := by
  refine ⟨rfl, rfl, rfl, rfl, rfl, rfl⟩

/-! ## Group segment size published after `setup_executable` -/

namespace HsaRunner

/-- `setup_executable` leaves the dynamic group-segment size as it was and, when it
succeeds, holds the static size the runtime reported for the kernel symbol. -/
theorem sizes_after_setup_executable (self : HsaRunner) (code_object_path symbol_name : String)
    (o : ExecutableOutcomes) :
    (setup_executable self code_object_path symbol_name o).2._group_dynamic_size =
      self._group_dynamic_size ∧
    ((setup_executable self code_object_path symbol_name o).1 = true →
      (setup_executable self code_object_path symbol_name o).2._group_static_size =
        o.group_segment_size) := by
  by_cases h1 : o.load_code_object = true
  swap
  · simp [setup_executable, runtime_call, hsa_error, h1]
  by_cases h2 : o.hsa_executable_create = HSA_STATUS_SUCCESS
  swap
  · simp [setup_executable, runtime_call, hsa_error, h1, h2]
  by_cases h3 : o.hsa_executable_load_code_object = HSA_STATUS_SUCCESS
  swap
  · simp [setup_executable, runtime_call, hsa_error, executable_created, executable_moved,
      h1, h2, h3]
  by_cases h4 : o.hsa_executable_freeze = HSA_STATUS_SUCCESS
  swap
  · simp [setup_executable, runtime_call, hsa_error, executable_created, executable_moved,
      h1, h2, h3, h4]
  by_cases h5 : o.hsa_executable_get_symbol = HSA_STATUS_SUCCESS
  swap
  · simp [setup_executable, runtime_call, hsa_error, executable_created, executable_moved,
      h1, h2, h3, h4, h5]
  by_cases h6 : o.symbol_info_kernel_object = HSA_STATUS_SUCCESS
  swap
  · simp [setup_executable, runtime_call, hsa_error, executable_created, executable_moved,
      h1, h2, h3, h4, h5, h6]
  by_cases h7 : o.symbol_info_group_segment_size = HSA_STATUS_SUCCESS
  swap
  · simp [setup_executable, runtime_call, hsa_error, executable_created, executable_moved,
      h1, h2, h3, h4, h5, h6, h7]
  · simp [setup_executable, runtime_call, hsa_error, executable_created, executable_moved,
      h1, h2, h3, h4, h5, h6, h7]

/-- The group segment size published by `dispatch_kernel` for a packet built after a
successful `setup_executable`. -/
theorem published_group_segment_size (self : HsaRunner) (code_object_path symbol_name : String)
    (o : ExecutableOutcomes) (params : KernelParams)
    (hok : (setup_executable self code_object_path symbol_name o).1 = true) :
    (dispatch_kernel (setup_dispatch_packet
      (setup_executable self code_object_path symbol_name o).2 params).2).2.packet_load
        off_group_segment_size 4 =
      (o.group_segment_size + self._group_dynamic_size) % 2 ^ 32 := by
  rw [group_segment_size_after_dispatch_kernel, static_size_after_setup,
    dynamic_size_after_setup,
    (sizes_after_setup_executable self code_object_path symbol_name o).1,
    (sizes_after_setup_executable self code_object_path symbol_name o).2 hok]

end HsaRunner

/-- C3 (as amended): after a successful `setup_executable` has resolved the static
group-segment size `o.group_segment_size` from the kernel symbol, the
`group_segment_size` member of the packet built by `setup_dispatch_packet` and published
by `dispatch_kernel` is that static size plus `_group_dynamic_size`, reduced modulo
`2^32` (the member is 32 bits wide); it is the exact sum whenever the sum is below
`2^32`, and with a dynamic size of zero it is the resolved static size. The last part
states the same of `dispatch_kernel` run on any session: it publishes
`_group_static_size + _group_dynamic_size` modulo `2^32`. -/
theorem C3_group_segment_size_is_sum_mod_2_32 (self : HsaRunner)
    (code_object_path symbol_name : String) (o : ExecutableOutcomes) (params : KernelParams)
    (hok : (HsaRunner.setup_executable self code_object_path symbol_name o).1 = true) :
    (HsaRunner.setup_executable self code_object_path symbol_name o).2._group_static_size =
      o.group_segment_size ∧
    (HsaRunner.dispatch_kernel (HsaRunner.setup_dispatch_packet
      (HsaRunner.setup_executable self code_object_path symbol_name o).2 params).2).2.packet_load
        off_group_segment_size 4 =
      (o.group_segment_size + self._group_dynamic_size) % 2 ^ 32 ∧
    (o.group_segment_size + self._group_dynamic_size < 2 ^ 32 →
      (HsaRunner.dispatch_kernel (HsaRunner.setup_dispatch_packet
        (HsaRunner.setup_executable self code_object_path symbol_name o).2
          params).2).2.packet_load off_group_segment_size 4 =
        o.group_segment_size + self._group_dynamic_size) ∧
    (self._group_dynamic_size = 0 → o.group_segment_size < 2 ^ 32 →
      (HsaRunner.dispatch_kernel (HsaRunner.setup_dispatch_packet
        (HsaRunner.setup_executable self code_object_path symbol_name o).2
          params).2).2.packet_load off_group_segment_size 4 =
        o.group_segment_size) ∧
    (∀ s : HsaRunner,
      (HsaRunner.dispatch_kernel s).2.packet_load off_group_segment_size 4 =
        (s._group_static_size + s._group_dynamic_size) % 2 ^ 32) := by
  have hpub := HsaRunner.published_group_segment_size self code_object_path symbol_name o
    params hok
  refine ⟨(HsaRunner.sizes_after_setup_executable self code_object_path symbol_name o).2 hok,
    hpub, fun h => ?_, fun h0 h => ?_, HsaRunner.group_segment_size_after_dispatch_kernel⟩
  · rw [hpub, Nat.mod_eq_of_lt h]
  · rw [hpub, h0, Nat.add_zero, Nat.mod_eq_of_lt h]

/-- C3 at the session `sample` (dynamic size 0) with a kernel resolved to 16 bytes of
static group memory: `setup_executable` succeeds and the published size is 16. -/
theorem C3_group_segment_size_is_sum_mod_2_32_witness :
    (HsaRunner.setup_executable HsaRunner.sample ("add_one.co") ("add_one")
      ExecutableOutcomes.all_ok).1 = true ∧
    (HsaRunner.dispatch_kernel (HsaRunner.setup_dispatch_packet
      (HsaRunner.setup_executable HsaRunner.sample ("add_one.co") ("add_one")
        ExecutableOutcomes.all_ok).2 KernelParams.sample).2).2.packet_load
        off_group_segment_size 4 = 16 :=
  ⟨rfl,
   (C3_group_segment_size_is_sum_mod_2_32 HsaRunner.sample ("add_one.co") ("add_one")
     ExecutableOutcomes.all_ok KernelParams.sample rfl).2.2.2.1 rfl (by decide)⟩

/-- C3 counterexample: `setup_executable` succeeds and resolves a static size of
`2^32 - 1` from the kernel symbol, the session requests 1 byte of dynamic group memory,
both 32-bit values; the packet then built and published has `group_segment_size` 0 and
not the sum `2^32`. -/
theorem C3_group_segment_size_wraps :
    (HsaRunner.setup_executable HsaRunner.sample_dynamic_one ("add_one.co") ("add_one")
      ExecutableOutcomes.large_static).1 = true ∧
    (HsaRunner.setup_executable HsaRunner.sample_dynamic_one ("add_one.co") ("add_one")
      ExecutableOutcomes.large_static).2._group_static_size = 4294967295 ∧
    (HsaRunner.setup_executable HsaRunner.sample_dynamic_one ("add_one.co") ("add_one")
      ExecutableOutcomes.large_static).2._group_dynamic_size = 1 ∧
    (HsaRunner.dispatch_kernel (HsaRunner.setup_dispatch_packet
      (HsaRunner.setup_executable HsaRunner.sample_dynamic_one ("add_one.co") ("add_one")
        ExecutableOutcomes.large_static).2 KernelParams.sample).2).2.packet_load
        off_group_segment_size 4 = 0 ∧
    (HsaRunner.dispatch_kernel (HsaRunner.setup_dispatch_packet
      (HsaRunner.setup_executable HsaRunner.sample_dynamic_one ("add_one.co") ("add_one")
        ExecutableOutcomes.large_static).2 KernelParams.sample).2).2.packet_load
        off_group_segment_size 4 ≠
      (HsaRunner.setup_executable HsaRunner.sample_dynamic_one ("add_one.co") ("add_one")
        ExecutableOutcomes.large_static).2._group_static_size +
      (HsaRunner.setup_executable HsaRunner.sample_dynamic_one ("add_one.co") ("add_one")
        ExecutableOutcomes.large_static).2._group_dynamic_size := by
  have hok : (HsaRunner.setup_executable HsaRunner.sample_dynamic_one ("add_one.co")
      ("add_one") ExecutableOutcomes.large_static).1 = true := rfl
  rw [HsaRunner.published_group_segment_size _ _ _ _ _ hok,
    (HsaRunner.sizes_after_setup_executable _ _ _ _).1,
    (HsaRunner.sizes_after_setup_executable _ _ _ _).2 hok]
  exact ⟨rfl, by decide, by decide, by decide, by decide⟩
